import Mathlib

/-!
productfc: the stock-consistency subsystem

A shallow embedding of the read-through cache (`cmd/product/service`,
`cmd/product/repository`) and of the two Kafka stock consumers
(`kafka/consumer`), followed by theorems about them.

Go values are embedded as follows.

* `int64` / `int` identifiers and quantities are `Int`; the only arithmetic on
  them is done by the SQL engine, never by Go, so no wrap-around is involved.
* a pointer `*models.Product` is an `Option Product` (`none` is the nil pointer);
* a Go `error` result is an `Option Err` (`none` is the nil error);
* a function that can hit a run-time fault returns a `Result`, which is either
  the returned values or a panic;
* the stores (PostgreSQL through GORM, Redis through go-redis) are explicit
  state: the chain methods of `*gorm.DB` build a statement, the finisher
  methods execute it.
-/

namespace Productfc

/-! ## Errors and results -/

/-- Go error values that the code compares against, and every other error. -/
inductive Err where
  /-- The `redis.Nil` reply: the key does not exist. -/
  | redisNil
  /-- The `gorm.ErrRecordNotFound` error. -/
  | ErrRecordNotFound
  /-- The `gorm.ErrMissingWhereClause` error. -/
  | ErrMissingWhereClause
  /-- Any other error (connection refused, deadline exceeded, malformed JSON, SQL error). -/
  | other (msg : String)
  deriving DecidableEq, Repr

/-- Outcome of running a Go function: it returns, or the goroutine panics. -/
inductive Result (α : Type) where
  | ret (v : α)
  | panic (msg : String)
  deriving DecidableEq, Repr

/-! ## Data model -/

/-- Modelled from the spec: `models.Product` is declared in package `models`,
which is not among the sources. The fields are those of the spec's data model
(identifier, name, description, price, stock quantity, category reference); the
code reads `ID`, `Name` and `CategoryID` and the SQL names the columns `id`,
`name`, `description`, `price`, `stock`, `category_id`. -/
structure Product where
  ID : Int
  Name : String
  Description : String
  Price : Int
  Stock : Int
  CategoryID : Int
  deriving DecidableEq, Repr

/-- The zero value `models.Product{}`: the not-found sentinel. -/
def Product.zero : Product :=
  { ID := 0, Name := "", Description := "", Price := 0, Stock := 0, CategoryID := 0 }

/-- Modelled from the spec: `models.ProductCategory` is declared in package `models`,
which is not among the sources. The fields are those of the spec's data model
(identifier, name); the code reads `ID` and `Name`. -/
structure ProductCategory where
  ID : Int
  Name : String
  deriving DecidableEq, Repr

/-- The zero value `models.ProductCategory{}`: the not-found sentinel. -/
def ProductCategory.zero : ProductCategory := { ID := 0, Name := "" }

/-- Modelled from the spec: one element of `models.ProductStockUpdateEvent.Products`
(`{ "product_id": <int64>, "qty": <int> }`); the consumers read `ProductID` and `Qty`. -/
structure ProductStockItem where
  ProductID : Int
  Qty : Int
  deriving DecidableEq, Repr

/-- Modelled from the spec: `models.ProductStockUpdateEvent`, the decoded broker payload
`{ "products": [ ... ] }`. -/
structure ProductStockUpdateEvent where
  Products : List ProductStockItem
  deriving DecidableEq, Repr

/-! ## GORM: statements and their execution -/

/-- The value `gorm.Expr(sql, vars...)`: an SQL fragment and its arguments. -/
structure Expr where
  SQL : String
  Vars : List Int
  deriving DecidableEq, Repr

/-- A condition added by `Where(query, arg)`. -/
structure Cond where
  query : String
  arg : Int
  deriving DecidableEq, Repr

/-- Whether a row satisfies a condition. The only query text in the sources is `id = ?`. -/
def Cond.holds (c : Cond) (p : Product) : Bool :=
  c.query == "id = ?" && p.ID == c.arg

/-- The statement a `*gorm.DB` value carries while a chain is being built. -/
structure Statement where
  Table : String
  Model : Option Product
  Where : List Cond
  deriving DecidableEq, Repr

/-- The empty statement of a root handle. -/
def Statement.empty : Statement := { Table := "", Model := none, Where := [] }

/-- The database server behind the connection: the rows of table `product`, the
failure every executed statement meets when the server cannot be reached (or the
context is done), the evaluation of a `SET stock = <expr>` right-hand side by the
SQL engine on a row (an error is an SQL error), the statements executed so far
(each with the conditions it was executed with), and the rows of table
`product_category`. -/
structure Store where
  rows : List Product
  connErr : Option Err
  evalExpr : Expr → Product → Except Err Int
  executed : List (String × List Cond)
  categories : List ProductCategory := []

/-- A `*gorm.DB` value: configuration, connection, statement under construction
and the error of the last execution. -/
structure DB where
  AllowGlobalUpdate : Bool
  store : Store
  Statement : Statement
  Error : Option Err

/-- The handle `resource.InitDB` returns: `gorm.Open` with a `gorm.Config` that sets
only `Logger`, hence `AllowGlobalUpdate` is false. -/
def InitDB (store : Store) : DB :=
  { AllowGlobalUpdate := false, store := store, Statement := Statement.empty, Error := none }

namespace DB

/-- Chain method `Table(name)`. -/
def Table (db : DB) (name : String) : DB :=
  { db with Statement := { db.Statement with Table := name } }

/-- Chain method `WithContext(ctx)`; the context reaches the model through
`Store.connErr` only. -/
def WithContext (db : DB) : DB := db

/-- Chain method `Model(value)`. -/
def Model (db : DB) (value : Product) : DB :=
  { db with Statement := { db.Statement with Model := some value } }

/-- Chain method `Where(query, arg)`: adds a condition to the statement; nothing
is executed. -/
def Where (db : DB) (query : String) (arg : Int) : DB :=
  { db with Statement := { db.Statement with Where := db.Statement.Where ++ [⟨query, arg⟩] } }

/-- The conditions a statement is executed with: those added by `Where` so far, and
the primary key of the model when it is not zero. -/
def conditions (db : DB) : List Cond :=
  db.Statement.Where ++
    (match db.Statement.Model with
     | some m => if m.ID ≠ 0 then [⟨"id = ?", m.ID⟩] else []
     | none => [])

/-- Rows selected by a list of conditions. -/
def selects (conds : List Cond) (p : Product) : Bool :=
  conds.all (fun c => c.holds p)

/-- The rows after `UPDATE product SET stock = <expr> WHERE <conds>`; an SQL
error on any selected row fails the whole statement. -/
def updateRows (eval : Expr → Product → Except Err Int) (e : Expr) (conds : List Cond) :
    List Product → Except Err (List Product)
  | [] => .ok []
  | p :: ps =>
    if selects conds p then
      match eval e p with
      | .error err => .error err
      | .ok v =>
        match updateRows eval e conds ps with
        | .error err => .error err
        | .ok ps' => .ok ({ p with Stock := v } :: ps')
    else
      match updateRows eval e conds ps with
      | .error err => .error err
      | .ok ps' => .ok (p :: ps')

/-- Finisher method `Updates(map[string]interface{}{"stock": expr})`: executes the
update with the conditions the statement has at this point. The default
transaction is begun first, which fails when the server cannot be reached. Without
a condition, and unless `AllowGlobalUpdate` is set, GORM does not run the statement
and reports `ErrMissingWhereClause`. -/
def Updates (db : DB) (e : Expr) : DB :=
  match db.Error with
  | some _ => db
  | none =>
    match db.store.connErr with
    | some err => { db with Error := some err }
    | none =>
      if !db.AllowGlobalUpdate && db.conditions.isEmpty then
        { db with Error := some Err.ErrMissingWhereClause }
      else
        match updateRows db.store.evalExpr e db.conditions db.store.rows with
        | .error err => { db with Error := some err }
        | .ok rows =>
          { db with store := { db.store with
              rows := rows,
              executed := db.store.executed ++ [("UPDATE", db.conditions)] } }

/-- Of two selected rows, the one `ORDER BY id DESC` puts first. -/
def later (best : Option Product) (q : Product) : Option Product :=
  match best with
  | some b => if b.ID ≤ q.ID then some q else some b
  | none => some q

/-- The selected row with the greatest primary key (`ORDER BY id DESC LIMIT 1`). -/
def lastRow (conds : List Cond) (rows : List Product) : Option Product :=
  (rows.filter (selects conds)).foldl later none

/-- Finisher method `Last(&dest)`: executes the query and returns the handle and
the destination value, which stays the zero value when no row is found. -/
def Last (db : DB) : DB × Product :=
  match db.Error with
  | some _ => (db, Product.zero)
  | none =>
    match db.store.connErr with
    | some err => ({ db with Error := some err }, Product.zero)
    | none =>
      let db1 := { db with store := { db.store with
        executed := db.store.executed ++ [("SELECT", db.conditions)] } }
      match lastRow db.conditions db.store.rows with
      | some p => (db1, p)
      | none => ({ db1 with Error := some Err.ErrRecordNotFound }, Product.zero)

/-- The root handle after a chain has run: it keeps its own (empty) statement and
sees the server state the chain left. -/
def after (root tx : DB) : DB := { root with store := tx.store }

end DB

/-! ## Redis -/

/-- A key of the cache with its value and the time at which it expires. -/
structure Entry where
  key : String
  value : String
  expireAt : Nat
  deriving DecidableEq, Repr

/-- A `*redis.Client` with the server behind it: the stored entries, the server
clock in seconds, the failure every command meets when the server cannot be reached
(or the context is done), and the commands the client has issued. -/
structure Client where
  entries : List Entry
  now : Nat
  connErr : Option Err
  issued : List (String × String)
  deriving DecidableEq, Repr

namespace Client

/-- The live entry under a key: entries past their expiry are gone. -/
def lookup (c : Client) (key : String) : Option Entry :=
  c.entries.find? (fun e => e.key == key && decide (c.now < e.expireAt))

/-- Command `Get(ctx, key).Result()`: the value, `redis.Nil` when the key is
absent, or the connection error. -/
def Get (c : Client) (key : String) : Client × Except Err String :=
  let c1 := { c with issued := c.issued ++ [("GET", key)] }
  match c.connErr with
  | some err => (c1, .error err)
  | none =>
    match c.lookup key with
    | some e => (c1, .ok e.value)
    | none => (c1, .error Err.redisNil)

/-- Command `SetEx(ctx, key, value, ttl).Err()`: stores the value with an expiry
`ttl` seconds from now, replacing what the key held. -/
def SetEx (c : Client) (key value : String) (ttl : Nat) : Client × Option Err :=
  let c1 := { c with issued := c.issued ++ [("SETEX", key)] }
  match c.connErr with
  | some err => (c1, some err)
  | none =>
    ({ c1 with entries :=
        ⟨key, value, c.now + ttl⟩ :: c.entries.filter (fun e => !(e.key == key)) }, none)

/-- The server clock moves on by `d` seconds. -/
def elapse (c : Client) (d : Nat) : Client := { c with now := c.now + d }

end Client

/-- The functions `json.Marshal` and `json.Unmarshal` on `models.Product`. The struct
tags of `models.Product` are not among the sources, so the two functions are taken
as they are. -/
structure JSON where
  Marshal : Product → Except Err String
  Unmarshal : String → Except Err Product

/-- The call `json.Marshal(product)` on a pointer: a nil pointer encodes as `null`. -/
def JSON.MarshalPtr (json : JSON) : Option Product → Except Err String
  | none => .ok "null"
  | some p => json.Marshal p

/-! ## Package repository -/

/-- The struct `ProductRepository`: the two shared store handles. -/
structure ProductRepository where
  Database : DB
  Redis : Client

/-- The key `fmt.Sprintf(cacheKeyProductInfo, productID)` with
`cacheKeyProductInfo = "product:%d"`. -/
def cacheKeyProductInfo (productID : Int) : String :=
  "product:" ++ toString productID

/-- Ten minutes, in seconds: the expiry `SetProductByID` gives a product entry. -/
def productTTL : Nat := 10 * 60

namespace ProductRepository

/-- Source: `repository/redis.go`, `GetProductByIDFromRedis`. -/
def GetProductByIDFromRedis (json : JSON) (r : ProductRepository) (productID : Int) :
    ProductRepository × (Option Product × Option Err) :=
  let cacheKey := cacheKeyProductInfo productID
  let (redis, res) := r.Redis.Get cacheKey
  let r1 := { r with Redis := redis }
  match res with
  | .error err =>
    if err = Err.redisNil then (r1, (some Product.zero, none))
    else (r1, (none, some err))
  | .ok productStr =>
    match json.Unmarshal productStr with
    | .error err => (r1, (none, some err))
    | .ok product => (r1, (some product, none))

/-- Source: `repository/redis.go`, `SetProductByID`. -/
def SetProductByID (json : JSON) (r : ProductRepository) (product : Option Product)
    (productID : Int) : ProductRepository × Option Err :=
  let cacheKey := cacheKeyProductInfo productID
  match json.MarshalPtr product with
  | .error err => (r, some err)
  | .ok productJSON =>
    let (redis, err) := r.Redis.SetEx cacheKey productJSON productTTL
    match err with
    | some e => ({ r with Redis := redis }, some e)
    | none => ({ r with Redis := redis }, none)

/-- Source: `repository/database.go`, `FindProductByID`: the chain
`WithContext(ctx).Table("product").Where("id = ?", productID).Last(&product)`. -/
def FindProductByID (r : ProductRepository) (productID : Int) :
    ProductRepository × (Option Product × Option Err) :=
  let (tx, product) :=
    ((r.Database.WithContext.Table "product").Where "id = ?" productID).Last
  let r1 := { r with Database := r.Database.after tx }
  match tx.Error with
  | some err =>
    if err = Err.ErrRecordNotFound then (r1, (some Product.zero, none))
    else (r1, (none, some err))
  | none => (r1, (some product, none))

/-- Source: `repository/database.go`, `DeductProductStockByProductID`: the chain
`Table("product").WithContext(ctx).Model(&models.Product{}).Updates(...).Where("id = ?", productID)`
and then `.Error`. `Updates` comes before `Where` in the chain. -/
def DeductProductStockByProductID (r : ProductRepository) (productID qty : Int) :
    ProductRepository × Option Err :=
  let tx :=
    ((((r.Database.Table "product").WithContext).Model Product.zero).Updates
      ⟨"stock - %d", [qty]⟩).Where "id = ?" productID
  match tx.Error with
  | some err => ({ r with Database := r.Database.after tx }, some err)
  | none => ({ r with Database := r.Database.after tx }, none)

/-- Source: `repository/database.go`, `AddProductStockByProductID`: the same chain
with the expression `stock + %d`. -/
def AddProductStockByProductID (r : ProductRepository) (productID qty : Int) :
    ProductRepository × Option Err :=
  let tx :=
    ((((r.Database.Table "product").WithContext).Model Product.zero).Updates
      ⟨"stock + %d", [qty]⟩).Where "id = ?" productID
  match tx.Error with
  | some err => ({ r with Database := r.Database.after tx }, some err)
  | none => ({ r with Database := r.Database.after tx }, none)

end ProductRepository

/-! ## Package service -/

/-- A goroutine started by `go func(ctx, product, productID) { ... }` in
`GetProductByID`, with the arguments it was started with. -/
structure Goroutine where
  product : Option Product
  productID : Int
  deriving DecidableEq, Repr

/-- What the service and the consumers act on: the repository with its two stores,
the lines written to the loggers, and the goroutines started and not yet run. -/
structure World where
  repo : ProductRepository
  logs : List String
  spawned : List Goroutine

/-- Appends a line to the log. -/
def World.log (w : World) (line : String) : World :=
  { w with logs := w.logs ++ [line] }

/-- The process as `main` wires it: the handle of `InitDB`, a Redis client, nothing
logged and no goroutine started. -/
def World.boot (store : Store) (redis : Client) : World :=
  { repo := { Database := InitDB store, Redis := redis }, logs := [], spawned := [] }

namespace ProductService

/-- Source: `service/service.go`, `DeductProductStockByProductID`. -/
def DeductProductStockByProductID (w : World) (productID qty : Int) : World × Option Err :=
  let (repo, err) := w.repo.DeductProductStockByProductID productID qty
  match err with
  | some e => ({ w with repo := repo }, some e)
  | none => ({ w with repo := repo }, none)

/-- Source: `service/service.go`, `AddProductStockByProductID`. -/
def AddProductStockByProductID (w : World) (productID qty : Int) : World × Option Err :=
  let (repo, err) := w.repo.AddProductStockByProductID productID qty
  match err with
  | some e => ({ w with repo := repo }, some e)
  | none => ({ w with repo := repo }, none)

/-- Source: `service/service.go`, `GetProductByID`. The cache error is logged and
the function goes on to read `product.ID`, which faults when `product` is the nil
pointer. -/
def GetProductByID (json : JSON) (w : World) (productID : Int) :
    World × Result (Option Product × Option Err) :=
  -- get from Redis
  let (repo, (product, err)) := w.repo.GetProductByIDFromRedis json productID
  let w1 : World := { w with repo := repo }
  let w2 : World :=
    match err with
    | some _ =>
      w1.log ("s.ProductRepository.GetProductByIDFromRedis() got error, productID "
        ++ toString productID)
    | none => w1
  match product with
  | none => (w2, .panic "invalid memory address or nil pointer dereference")
  | some cached =>
    if cached.ID ≠ 0 then (w2, .ret (some cached, none))
    else
      -- get from DB
      let (repo, (product, err)) := w2.repo.FindProductByID productID
      let w3 : World := { w2 with repo := repo }
      match err with
      | some e => (w3, .ret (none, some e))
      | none =>
        ({ w3 with spawned := w3.spawned ++ [⟨product, productID⟩] }, .ret (product, none))

end ProductService

/-- The body of the goroutine of `GetProductByID`: one call of `SetProductByID`,
whose error is logged. -/
def Goroutine.run (json : JSON) (w : World) (g : Goroutine) : World :=
  let (repo, errConcurrent) := w.repo.SetProductByID json g.product g.productID
  let w1 : World := { w with repo := repo }
  match errConcurrent with
  | some _ =>
    w1.log ("s.ProductRepository.SetProductByID() got error, productID "
      ++ toString g.productID)
  | none => w1

/-- The started goroutines run to completion, in the order they were started. -/
def World.settle (json : JSON) (w : World) : World :=
  w.spawned.foldl (Goroutine.run json) { w with spawned := [] }

/-! ## Package usecase -/

namespace ProductUsecase

/-- Source: `usecase/usecase.go`, `GetProductByID`. -/
def GetProductByID (json : JSON) (w : World) (productID : Int) :
    World × Result (Option Product × Option Err) :=
  match ProductService.GetProductByID json w productID with
  | (w1, .panic msg) => (w1, .panic msg)
  | (w1, .ret (product, err)) =>
    match err with
    | some e => (w1, .ret (none, some e))
    | none => (w1, .ret (product, none))

end ProductUsecase

/-! ## Package consumer -/

/-- What `Reader.ReadMessage(ctx)` returns: a message with its payload, or an error. -/
inductive ReadResult where
  | message (Value : String)
  | error (err : Err)
  deriving DecidableEq, Repr

/-- The function `json.Unmarshal` into a `models.ProductStockUpdateEvent`. -/
abbrev EventDecoder := String → Except Err ProductStockUpdateEvent

namespace ProductUpdateStockConsumer

/-- Source: `consumer/update_stock.go`, the loop `for _, product := range event.Products`
of `Start`: a failed deduction is logged and the loop goes on. -/
def updateStock (w : World) (products : List ProductStockItem) : World :=
  products.foldl
    (fun w product =>
      let (w1, err) :=
        ProductService.DeductProductStockByProductID w product.ProductID product.Qty
      match err with
      | some _ =>
        w1.log ("[KAFKA] Error Update Product Stock Product ID #" ++ toString product.ProductID)
      | none => w1)
    w

/-- Source: `consumer/update_stock.go`, one turn of the loop `for { ... }` of `Start`,
given what `ReadMessage` returned. -/
def turn (decode : EventDecoder) (w : World) (r : ReadResult) : World :=
  match r with
  | .error _ => w.log "[KAFKA] Error ReadMessage: "
  | .message value =>
    match decode value with
    | .error _ => w.log "[KAFKA] Error Unmarshal Event Message: "
    | .ok event => updateStock w event.Products

/-- Source: `consumer/update_stock.go`, `Start`, run over the first results of the
reader: the state in which the loop asks for the next message. -/
def Start (decode : EventDecoder) (w : World) (reads : List ReadResult) : World :=
  reads.foldl (turn decode) (w.log "[KAFKA] Listening to topic stock.update")

end ProductUpdateStockConsumer

namespace ProductRollbackStockConsumer

/-- Source: `consumer/revert_stock.go`, the loop `for _, product := range event.Products`
of `Start`: after a failed addition the loop goes on. -/
def rollbackStock (w : World) (products : List ProductStockItem) : World :=
  products.foldl
    (fun w product =>
      let (w1, err) :=
        ProductService.AddProductStockByProductID w product.ProductID product.Qty
      match err with
      | some _ => w1
      | none => w1)
    w

/-- Source: `consumer/revert_stock.go`, one turn of the loop `for { ... }` of `Start`. -/
def turn (decode : EventDecoder) (w : World) (r : ReadResult) : World :=
  match r with
  | .error _ => w
  | .message value =>
    match decode value with
    | .error _ => w
    | .ok event => rollbackStock w event.Products

/-- Source: `consumer/revert_stock.go`, `Start`, run over the first results of the
reader. -/
def Start (decode : EventDecoder) (w : World) (reads : List ReadResult) : World :=
  reads.foldl (turn decode) (w.log "[Kafka] Listening to topic 'stock.rollback'")

end ProductRollbackStockConsumer

/-! ## Observations -/

/-- The stock of the product with the given id in table `product`, if there is one. -/
def stockOf (w : World) (productID : Int) : Option Int :=
  (w.repo.Database.store.rows.find? (fun p => p.ID == productID)).map (fun p => p.Stock)

/-- An SQL engine that evaluates the right-hand side as the arithmetic its author
meant: `stock - %d` is the stock minus the argument and `stock + %d` the stock plus
the argument. It is a value for the field `evalExpr` of the fixtures and not the
behaviour of a real engine: `gorm.Expr` binds only `?`, so the statement the source
builds keeps the text `%d`; and on the handle of `InitDB` no update reaches the
engine at all. -/
def arithEngine (e : Expr) (p : Product) : Except Err Int :=
  match e.Vars with
  | [q] =>
    if e.SQL == "stock - %d" then .ok (p.Stock - q)
    else if e.SQL == "stock + %d" then .ok (p.Stock + q)
    else .error (Err.other "syntax error")
  | _ => .error (Err.other "syntax error")

/-! ## Fixtures -/

/-- Fixture: a product with id 1 and stock 10. -/
def productOne : Product :=
  { ID := 1, Name := "pen", Description := "", Price := 5, Stock := 10, CategoryID := 1 }

/-- Fixture: a product with id 2 and stock 20. -/
def productTwo : Product :=
  { ID := 2, Name := "ink", Description := "", Price := 9, Stock := 20, CategoryID := 1 }

/-- Fixture: a reachable database holding the two fixture products. -/
def storeTwo : Store :=
  { rows := [productOne, productTwo], connErr := none, evalExpr := arithEngine, executed := [] }

/-- Fixture: a reachable, empty cache at time 0. -/
def redisEmpty : Client := { entries := [], now := 0, connErr := none, issued := [] }

/-- Fixture: a cache that cannot be reached. -/
def redisDown : Client :=
  { entries := [], now := 0, connErr := some (Err.other "connection refused"), issued := [] }

/-- Fixture: a codec that writes a product as its id and stock, and reads back the
encoding of `productOne`. -/
def jsonOne : JSON :=
  { Marshal := fun p => .ok (toString p.ID ++ "," ++ toString p.Stock),
    Unmarshal := fun s =>
      if s == "1,10" then .ok productOne else .error (Err.other "invalid character") }

/-- The error the update chain of a root handle of `InitDB` ends with. -/
def updateChainError (store : Store) : Err :=
  match store.connErr with
  | some err => err
  | none => Err.ErrMissingWhereClause

/-- The line the deduction consumer logs for a failed item. -/
def updateStockLine (product : ProductStockItem) : String :=
  "[KAFKA] Error Update Product Stock Product ID #" ++ toString product.ProductID

/-- Fixture: a cache holding, under the key of product 1, a value that does not
decode. -/
def redisGarbled : Client :=
  { entries := [⟨"product:1", "garbled", 600⟩], now := 0, connErr := none, issued := [] }

/-- Fixture: a decoder that knows the payload of the event with the single item
`(1, 5)`. -/
def decodeFive : EventDecoder := fun value =>
  if value == "P:5" then .ok ⟨[⟨1, 5⟩]⟩ else .error (Err.other "invalid character")

/-- Fixture: the repository with the fixture rows behind a handle on which global
updates are allowed. The program never builds such a handle (`InitDB` leaves
`AllowGlobalUpdate` false); what is shown on it illustrates the expression and is
not behaviour of the program. -/
def repoGlobal : ProductRepository :=
  { Database := { InitDB storeTwo with AllowGlobalUpdate := true }, Redis := redisEmpty }

/-- The store after a `SELECT` by id has been executed. -/
def Store.afterSelect (store : Store) (productID : Int) : Store :=
  { store with executed := store.executed ++ [("SELECT", [⟨"id = ?", productID⟩])] }

/-- The clock of the cache moves on by `d` seconds. -/
def World.elapse (w : World) (d : Nat) : World :=
  { w with repo := { w.repo with Redis := w.repo.Redis.elapse d } }

/-- The number of `SETEX` commands a client has issued. -/
def setExCount (c : Client) : Nat :=
  (c.issued.filter (fun cmd => cmd.1 == "SETEX")).length

/-- A request and what follows it: `GetProductByID` returns to the caller, then the
cache becomes whatever `afterwards` makes of it (it may have become unreachable),
and the goroutines the call started run. The second component is what the caller
got. -/
def requestThenWriteBack (json : JSON) (w : World) (productID : Int)
    (afterwards : Client → Client) : World × Result (Option Product × Option Err) :=
  let (w1, res) := ProductService.GetProductByID json w productID
  (World.settle json { w1 with repo := { w1.repo with Redis := afterwards w1.repo.Redis } }, res)

/-- Fixture: a database in which the stock of product 1 is 4. -/
def storeChanged : Store :=
  { rows := [{ productOne with Stock := 4 }], connErr := none, evalExpr := arithEngine,
    executed := [] }

/-- Fixture: a cache holding product 1 as it was encoded when its stock was 10. -/
def redisCached : Client :=
  { entries := [⟨"product:1", "1,10", 600⟩], now := 0, connErr := none, issued := [] }

/-- Fixture: a database that cannot be reached. -/
def storeDown : Store :=
  { rows := [productOne], connErr := some (Err.other "connection refused"),
    evalExpr := arithEngine, executed := [] }

/-! ## Contexts -/

/-- A key of `context.WithValue`. The sources use the string `request_id` and, in
`GetProductByID`, the value `context.Background()`. -/
inductive CtxKey where
  | str (s : String)
  | background
  deriving DecidableEq, Repr

/-- A `context.Context` as the sources build it: the root `context.Background()`, a
child made by `context.WithTimeout` (named by the number of its cancel function,
with its deadline in seconds), a child made by `context.WithValue`. -/
inductive Context where
  | Background
  | WithTimeout (parent : Context) (cancel : Nat) (deadline : Nat)
  | WithValue (parent : Context) (key : CtxKey) (val : Option String)
  deriving DecidableEq, Repr

/-- What decides whether a context is done: the time, and the cancel functions
that have been called. -/
structure Moment where
  now : Nat
  cancelled : List Nat
  deriving DecidableEq, Repr

namespace Context

/-- Whether `ctx.Done()` is closed: a child is done when its parent is, a timeout
context also when its deadline has passed or its cancel function has been called. -/
def Done (t : Moment) : Context → Bool
  | Background => false
  | WithTimeout parent cancel deadline =>
    parent.Done t || decide (deadline ≤ t.now) || t.cancelled.contains cancel
  | WithValue parent _ _ => parent.Done t

/-- The method `ctx.Value(key)`: the value of the nearest `WithValue` with that key. -/
def Value : Context → CtxKey → Option String
  | Background, _ => none
  | WithTimeout parent _ _, k => parent.Value k
  | WithValue parent key val, k => if key = k then val else parent.Value k

end Context

/-- Source: `middleware/request_logger.go`, `RequestLogger`: the context of a request
that starts at `start`, `context.WithTimeout(context.Background(), 2*time.Second)`
wrapped by `context.WithValue(timeoutCtx, "request_id", requestID)`. The cancel
function is deferred: it is called when the handlers have returned. -/
def requestContext (start cancel : Nat) (requestID : String) : Context :=
  Context.WithValue (Context.WithTimeout Context.Background cancel (start + 2))
    (CtxKey.str "request_id") (some requestID)

/-- Source: `service/service.go`, `GetProductByID`, the context of the goroutine:
`context.WithValue(ctx, context.Background(), ctx.Value("request_id"))`. The parent
is the request's `ctx`; `context.Background()` is the key. -/
def ctxConcurrent (ctx : Context) : Context :=
  Context.WithValue ctx CtxKey.background (ctx.Value (CtxKey.str "request_id"))

/-- A Redis client used with a context: go-redis returns the context's error, and
sends nothing, when the context is done. -/
def Client.withContext (c : Client) (ctx : Context) (t : Moment) : Client :=
  if ctx.Done t then { c with connErr := some (Err.other "context canceled") } else c

/-! ## Categories and the management operations -/

/-- The functions `json.Marshal` and `json.Unmarshal` on `models.ProductCategory`,
taken as they are. -/
structure CategoryJSON where
  Marshal : ProductCategory → Except Err String
  Unmarshal : String → Except Err ProductCategory

/-- The call `json.Marshal(productCategory)` on a pointer: a nil pointer encodes as
`null`. -/
def CategoryJSON.MarshalPtr (json : CategoryJSON) : Option ProductCategory → Except Err String
  | none => .ok "null"
  | some c => json.Marshal c

/-- Whether a category row satisfies a condition. -/
def Cond.holdsCategory (c : Cond) (row : ProductCategory) : Bool :=
  c.query == "id = ?" && row.ID == c.arg

/-- The id the sequence of a table gives a row inserted without one: modelled as one
more than the greatest id in the table. -/
def nextID (ids : List Int) : Int := ids.foldl max 0 + 1

namespace DB

/-- Category rows selected by a list of conditions. -/
def selectsCategory (conds : List Cond) (row : ProductCategory) : Bool :=
  conds.all (fun c => c.holdsCategory row)

/-- Of two selected category rows, the one `ORDER BY id DESC` puts first. -/
def laterCategory (best : Option ProductCategory) (q : ProductCategory) :
    Option ProductCategory :=
  match best with
  | some b => if b.ID ≤ q.ID then some q else some b
  | none => some q

/-- Finisher method `Last(&dest)` with a `models.ProductCategory` destination, on
table `product_category`. -/
def LastCategory (db : DB) : DB × ProductCategory :=
  match db.Error with
  | some _ => (db, ProductCategory.zero)
  | none =>
    match db.store.connErr with
    | some err => ({ db with Error := some err }, ProductCategory.zero)
    | none =>
      let db1 := { db with store := { db.store with
        executed := db.store.executed ++ [("SELECT", db.Statement.Where)] } }
      match (db.store.categories.filter (selectsCategory db.Statement.Where)).foldl
          laterCategory none with
      | some c => (db1, c)
      | none => ({ db1 with Error := some Err.ErrRecordNotFound }, ProductCategory.zero)

/-- Finisher method `Create(product)`: inserts the row, with an id from the sequence
when its `ID` is zero, and returns the value with its id; an id already in the
table is a unique-constraint error. -/
def Create (db : DB) (value : Product) : DB × Product :=
  match db.Error with
  | some _ => (db, value)
  | none =>
    match db.store.connErr with
    | some err => ({ db with Error := some err }, value)
    | none =>
      let row : Product :=
        if value.ID = 0 then { value with ID := nextID (db.store.rows.map (fun p => p.ID)) }
        else value
      if db.store.rows.any (fun p => p.ID == row.ID) then
        ({ db with Error := some (Err.other "duplicate key value") }, value)
      else
        ({ db with store := { db.store with
            rows := db.store.rows ++ [row],
            executed := db.store.executed ++ [("INSERT", [])] } }, row)

/-- Finisher method `Create(productCategory)`. -/
def CreateCategory (db : DB) (value : ProductCategory) : DB × ProductCategory :=
  match db.Error with
  | some _ => (db, value)
  | none =>
    match db.store.connErr with
    | some err => ({ db with Error := some err }, value)
    | none =>
      let row : ProductCategory :=
        if value.ID = 0 then
          { value with ID := nextID (db.store.categories.map (fun c => c.ID)) }
        else value
      if db.store.categories.any (fun c => c.ID == row.ID) then
        ({ db with Error := some (Err.other "duplicate key value") }, value)
      else
        ({ db with store := { db.store with
            categories := db.store.categories ++ [row],
            executed := db.store.executed ++ [("INSERT", [])] } }, row)

/-- Finisher method `Save(product)`: a value with a zero `ID` is created; otherwise
all columns of the row with that id are updated, and the row is inserted when no
row was affected. -/
def Save (db : DB) (value : Product) : DB × Product :=
  if value.ID = 0 then db.Create value
  else
    match db.Error with
    | some _ => (db, value)
    | none =>
      match db.store.connErr with
      | some err => ({ db with Error := some err }, value)
      | none =>
        if db.store.rows.any (fun p => p.ID == value.ID) then
          ({ db with store := { db.store with
              rows := db.store.rows.map (fun p => if p.ID == value.ID then value else p),
              executed := db.store.executed ++ [("UPDATE", [⟨"id = ?", value.ID⟩])] } }, value)
        else
          ({ db with store := { db.store with
              rows := db.store.rows ++ [value],
              executed := db.store.executed
                ++ [("UPDATE", [⟨"id = ?", value.ID⟩]), ("INSERT", [])] } }, value)

/-- Finisher method `Save(productCategory)`. -/
def SaveCategory (db : DB) (value : ProductCategory) : DB × ProductCategory :=
  if value.ID = 0 then db.CreateCategory value
  else
    match db.Error with
    | some _ => (db, value)
    | none =>
      match db.store.connErr with
      | some err => ({ db with Error := some err }, value)
      | none =>
        if db.store.categories.any (fun c => c.ID == value.ID) then
          ({ db with store := { db.store with
              categories :=
                db.store.categories.map (fun c => if c.ID == value.ID then value else c),
              executed := db.store.executed ++ [("UPDATE", [⟨"id = ?", value.ID⟩])] } }, value)
        else
          ({ db with store := { db.store with
              categories := db.store.categories ++ [value],
              executed := db.store.executed
                ++ [("UPDATE", [⟨"id = ?", value.ID⟩]), ("INSERT", [])] } }, value)

/-- Finisher method `Delete(&models.Product{}, id)`: deletes the rows of table
`product` with that primary key. -/
def Delete (db : DB) (id : Int) : DB :=
  match db.Error with
  | some _ => db
  | none =>
    match db.store.connErr with
    | some err => { db with Error := some err }
    | none =>
      { db with store := { db.store with
          rows := db.store.rows.filter (fun p => !(p.ID == id)),
          executed := db.store.executed
            ++ [("DELETE", db.Statement.Where ++ [⟨"id = ?", id⟩])] } }

/-- Finisher method `Delete(&models.ProductCategory{}, id)`. -/
def DeleteCategory (db : DB) (id : Int) : DB :=
  match db.Error with
  | some _ => db
  | none =>
    match db.store.connErr with
    | some err => { db with Error := some err }
    | none =>
      { db with store := { db.store with
          categories := db.store.categories.filter (fun c => !(c.ID == id)),
          executed := db.store.executed
            ++ [("DELETE", db.Statement.Where ++ [⟨"id = ?", id⟩])] } }

end DB

/-- The key `fmt.Sprintf(cacheKeyProductCategoryInfo, productCategoryID)` with
`cacheKeyProductCategoryInfo = "product_category:%d"`. -/
def cacheKeyProductCategoryInfo (productCategoryID : Int) : String :=
  "product_category:" ++ toString productCategoryID

/-- One minute, in seconds: the expiry `SetProductCategoryByID` gives a category
entry. -/
def productCategoryTTL : Nat := 1 * 60

namespace ProductRepository

/-- Source: `repository/redis.go`, `GetProductCategoryByIDFromRedis`. -/
def GetProductCategoryByIDFromRedis (json : CategoryJSON) (r : ProductRepository)
    (productCategoryID : Int) : ProductRepository × (Option ProductCategory × Option Err) :=
  let cacheKey := cacheKeyProductCategoryInfo productCategoryID
  let (redis, res) := r.Redis.Get cacheKey
  let r1 := { r with Redis := redis }
  match res with
  | .error err =>
    if err = Err.redisNil then (r1, (some ProductCategory.zero, none))
    else (r1, (none, some err))
  | .ok productCategoryStr =>
    match json.Unmarshal productCategoryStr with
    | .error err => (r1, (none, some err))
    | .ok productCategory => (r1, (some productCategory, none))

/-- Source: `repository/redis.go`, `SetProductCategoryByID`. -/
def SetProductCategoryByID (json : CategoryJSON) (r : ProductRepository)
    (productCategory : Option ProductCategory) (productCategoryID : Int) :
    ProductRepository × Option Err :=
  let cacheKey := cacheKeyProductCategoryInfo productCategoryID
  match json.MarshalPtr productCategory with
  | .error err => (r, some err)
  | .ok productCategoryJSON =>
    let (redis, err) := r.Redis.SetEx cacheKey productCategoryJSON productCategoryTTL
    match err with
    | some e => ({ r with Redis := redis }, some e)
    | none => ({ r with Redis := redis }, none)

/-- Source: `repository/database.go`, `FindProductCategoryByID`: the chain
`WithContext(ctx).Table("product_category").Where("id = ?", productCategoryID).Last(...)`. -/
def FindProductCategoryByID (r : ProductRepository) (productCategoryID : Int) :
    ProductRepository × (Option ProductCategory × Option Err) :=
  let (tx, productCategory) :=
    ((r.Database.WithContext.Table "product_category").Where "id = ?"
      productCategoryID).LastCategory
  let r1 := { r with Database := r.Database.after tx }
  match tx.Error with
  | some err =>
    if err = Err.ErrRecordNotFound then (r1, (some ProductCategory.zero, none))
    else (r1, (none, some err))
  | none => (r1, (some productCategory, none))

/-- Source: `repository/database.go`, `InsertNewProduct`. -/
def InsertNewProduct (r : ProductRepository) (product : Product) :
    ProductRepository × (Int × Option Err) :=
  let (tx, created) := (r.Database.WithContext.Table "product").Create product
  match tx.Error with
  | some err => ({ r with Database := r.Database.after tx }, (0, some err))
  | none => ({ r with Database := r.Database.after tx }, (created.ID, none))

/-- Source: `repository/database.go`, `InsertNewProductCategory`. -/
def InsertNewProductCategory (r : ProductRepository) (productCategory : ProductCategory) :
    ProductRepository × (Int × Option Err) :=
  let (tx, created) :=
    (r.Database.WithContext.Table "product_category").CreateCategory productCategory
  match tx.Error with
  | some err => ({ r with Database := r.Database.after tx }, (0, some err))
  | none => ({ r with Database := r.Database.after tx }, (created.ID, none))

/-- Source: `repository/database.go`, `UpdateProduct`. -/
def UpdateProduct (r : ProductRepository) (product : Product) :
    ProductRepository × (Option Product × Option Err) :=
  let (tx, saved) := (r.Database.WithContext.Table "product").Save product
  match tx.Error with
  | some err => ({ r with Database := r.Database.after tx }, (none, some err))
  | none => ({ r with Database := r.Database.after tx }, (some saved, none))

/-- Source: `repository/database.go`, `UpdateProductCategory`. -/
def UpdateProductCategory (r : ProductRepository) (productCategory : ProductCategory) :
    ProductRepository × (Option ProductCategory × Option Err) :=
  let (tx, saved) :=
    (r.Database.WithContext.Table "product_category").SaveCategory productCategory
  match tx.Error with
  | some err => ({ r with Database := r.Database.after tx }, (none, some err))
  | none => ({ r with Database := r.Database.after tx }, (some saved, none))

/-- Source: `repository/database.go`, `DeleteProduct`. -/
def DeleteProduct (r : ProductRepository) (productID : Int) : ProductRepository × Option Err :=
  let tx := (r.Database.WithContext.Table "product").Delete productID
  match tx.Error with
  | some err => ({ r with Database := r.Database.after tx }, some err)
  | none => ({ r with Database := r.Database.after tx }, none)

/-- Source: `repository/database.go`, `DeleteProductCategory`. -/
def DeleteProductCategory (r : ProductRepository) (productCategoryID : Int) :
    ProductRepository × Option Err :=
  let tx := (r.Database.WithContext.Table "product_category").DeleteCategory productCategoryID
  match tx.Error with
  | some err => ({ r with Database := r.Database.after tx }, some err)
  | none => ({ r with Database := r.Database.after tx }, none)

end ProductRepository

namespace ProductService

/-- Source: `service/service.go`, `GetProductCategoryByID`: the store lookup only. -/
def GetProductCategoryByID (w : World) (productCategoryID : Int) :
    World × (Option ProductCategory × Option Err) :=
  let (repo, (productCategory, err)) := w.repo.FindProductCategoryByID productCategoryID
  match err with
  | some e => ({ w with repo := repo }, (none, some e))
  | none => ({ w with repo := repo }, (productCategory, none))

/-- Source: `service/service.go`, `CreateNewProduct`. -/
def CreateNewProduct (w : World) (param : Product) : World × (Int × Option Err) :=
  let (repo, (productID, err)) := w.repo.InsertNewProduct param
  match err with
  | some e => ({ w with repo := repo }, (0, some e))
  | none => ({ w with repo := repo }, (productID, none))

/-- Source: `service/service.go`, `CreateNewProductCategory`. -/
def CreateNewProductCategory (w : World) (param : ProductCategory) :
    World × (Int × Option Err) :=
  let (repo, (productCategoryID, err)) := w.repo.InsertNewProductCategory param
  match err with
  | some e => ({ w with repo := repo }, (0, some e))
  | none => ({ w with repo := repo }, (productCategoryID, none))

/-- Source: `service/service.go`, `EditProdut`. -/
def EditProdut (w : World) (product : Product) : World × (Option Product × Option Err) :=
  let (repo, (product, err)) := w.repo.UpdateProduct product
  match err with
  | some e => ({ w with repo := repo }, (none, some e))
  | none => ({ w with repo := repo }, (product, none))

/-- Source: `service/service.go`, `EditProductCategory`. -/
def EditProductCategory (w : World) (productCategory : ProductCategory) :
    World × (Option ProductCategory × Option Err) :=
  let (repo, (productCategory, err)) := w.repo.UpdateProductCategory productCategory
  match err with
  | some e => ({ w with repo := repo }, (none, some e))
  | none => ({ w with repo := repo }, (productCategory, none))

/-- Source: `service/service.go`, `DeleteProduct`. -/
def DeleteProduct (w : World) (productID : Int) : World × Option Err :=
  let (repo, err) := w.repo.DeleteProduct productID
  match err with
  | some e => ({ w with repo := repo }, some e)
  | none => ({ w with repo := repo }, none)

/-- Source: `service/service.go`, `DeleteProductCategory`. -/
def DeleteProductCategory (w : World) (productCategoryID : Int) : World × Option Err :=
  let (repo, err) := w.repo.DeleteProductCategory productCategoryID
  match err with
  | some e => ({ w with repo := repo }, some e)
  | none => ({ w with repo := repo }, none)

end ProductService

/-! ## The consumer loops and the entry point -/

/-- How one turn of a `for { ... }` loop ends: with `continue` or at the end of the
body the loop takes its next turn; with `return` or `break` the function returns. -/
inductive Flow where
  | next
  | exit
  deriving DecidableEq, Repr

/-- A `for { ... }` loop over the results of the reader, followed for at most `fuel`
turns from the `i`-th result: `some w` when the function has returned, in world `w`,
and `none` when it is still in the loop. -/
def loopFor (body : World → ReadResult → World × Flow) (reads : Nat → ReadResult) :
    Nat → Nat → World → Option World
  | 0, _, _ => none
  | fuel + 1, i, w =>
    match body w (reads i) with
    | (w1, Flow.next) => loopFor body reads fuel (i + 1) w1
    | (w1, Flow.exit) => some w1

namespace ProductUpdateStockConsumer

/-- Source: `consumer/update_stock.go`, the body of the loop of `Start` with the way
it ends: `continue` after a read error, `continue` after a decode error, and the end
of the body after the loop over the items (whose own `continue` stays inside it). -/
def body (decode : EventDecoder) (w : World) (r : ReadResult) : World × Flow :=
  match r with
  | .error _ => (w.log "[KAFKA] Error ReadMessage: ", Flow.next)
  | .message value =>
    match decode value with
    | .error _ => (w.log "[KAFKA] Error Unmarshal Event Message: ", Flow.next)
    | .ok event => (updateStock w event.Products, Flow.next)

/-- Source: `consumer/update_stock.go`, `Start`, followed for at most `fuel` turns of
its loop. -/
def StartFor (decode : EventDecoder) (reads : Nat → ReadResult) (fuel : Nat) (w : World) :
    Option World :=
  loopFor (body decode) reads fuel 0 (w.log "[KAFKA] Listening to topic stock.update")

end ProductUpdateStockConsumer

namespace ProductRollbackStockConsumer

/-- Source: `consumer/revert_stock.go`, the body of the loop of `Start` with the way
it ends. -/
def body (decode : EventDecoder) (w : World) (r : ReadResult) : World × Flow :=
  match r with
  | .error _ => (w, Flow.next)
  | .message value =>
    match decode value with
    | .error _ => (w, Flow.next)
    | .ok event => (rollbackStock w event.Products, Flow.next)

/-- Source: `consumer/revert_stock.go`, `Start`, followed for at most `fuel` turns of
its loop. -/
def StartFor (decode : EventDecoder) (reads : Nat → ReadResult) (fuel : Nat) (w : World) :
    Option World :=
  loopFor (body decode) reads fuel 0 (w.log "[Kafka] Listening to topic 'stock.rollback'")

end ProductRollbackStockConsumer

/-- The statements of `main`, in the order of the source. -/
inductive MainStep where
  | LoadConfig
  | InitRedis
  | InitDB
  | SetupLogger
  | NewProductRepository
  | NewProductService
  | NewProductUsecase
  | NewProductHandler
  | NewProductUpdateStockConsumer
  | UpdateStockStart
  | NewProductRollbackStockConsumer
  | RollbackStockStart
  | ginDefault
  | SetupRoutes
  | routerRun
  | logServerRunning
  deriving DecidableEq, Repr

/-- What `main` finds when it starts: whether the configuration file can be read,
whether Redis answers the ping and whether the database can be opened (each failure
ends the process with `log.Fatalf`), the two stores, and what the readers of the two
topics will return. -/
structure Boot where
  configOk : Bool
  redisOk : Bool
  dbOk : Bool
  store : Store
  redis : Client
  decode : EventDecoder
  updateReads : Nat → ReadResult
  rollbackReads : Nat → ReadResult

/-- The statements of `main` up to the call of the deduction consumer's `Start`. -/
def mainUntilUpdateStockStart : List MainStep :=
  [MainStep.LoadConfig, MainStep.InitRedis, MainStep.InitDB, MainStep.SetupLogger,
   MainStep.NewProductRepository, MainStep.NewProductService, MainStep.NewProductUsecase,
   MainStep.NewProductHandler, MainStep.NewProductUpdateStockConsumer,
   MainStep.UpdateStockStart]

/-- Source: `main.go`, `main`: the statements entered when each consumer loop is
followed for at most `fuel` turns. Both `Start` calls are plain calls, so what comes
after one is entered only once it has returned. -/
def main (env : Boot) (fuel : Nat) : List MainStep :=
  if !env.configOk then [MainStep.LoadConfig]
  else if !env.redisOk then [MainStep.LoadConfig, MainStep.InitRedis]
  else if !env.dbOk then [MainStep.LoadConfig, MainStep.InitRedis, MainStep.InitDB]
  else
    match ProductUpdateStockConsumer.StartFor env.decode env.updateReads fuel
        (World.boot env.store env.redis) with
    | none => mainUntilUpdateStockStart
    | some w1 =>
      match ProductRollbackStockConsumer.StartFor env.decode env.rollbackReads fuel w1 with
      | none =>
        mainUntilUpdateStockStart
          ++ [MainStep.NewProductRollbackStockConsumer, MainStep.RollbackStockStart]
      | some _ =>
        mainUntilUpdateStockStart
          ++ [MainStep.NewProductRollbackStockConsumer, MainStep.RollbackStockStart,
              MainStep.ginDefault, MainStep.SetupRoutes, MainStep.routerRun,
              MainStep.logServerRunning]

/-! ## Package handler -/

/-- The value a handler passes to `c.JSON`. -/
inductive ResponseBody where
  | errorMessage (msg : String)
  | errorValue (err : Err)
  | product (p : Product)
  deriving DecidableEq, Repr

/-- The status and body a handler answers with. -/
structure Response where
  status : Nat
  body : ResponseBody
  deriving DecidableEq, Repr

namespace ProductHandler

/-- Source: `handler/handler.go`, `GetProductInfo`. The function
`strconv.ParseInt(s, 10, 64)` is taken as it is. -/
def GetProductInfo (ParseInt : String → Except Err Int) (json : JSON) (w : World)
    (productIDstr : String) : World × Result Response :=
  match ParseInt productIDstr with
  | .error _ =>
    (w.log "strconv.ParseInt got error", .ret ⟨400, .errorMessage "Invalid Product ID"⟩)
  | .ok productID =>
    match ProductUsecase.GetProductByID json w productID with
    | (w1, .panic msg) => (w1, .panic msg)
    | (w1, .ret (product, err)) =>
      match err with
      | some e =>
        (w1.log "h.ProductUsecase.GetProductByID() got error", .ret ⟨500, .errorValue e⟩)
      | none =>
        match product with
        | none => (w1, .panic "invalid memory address or nil pointer dereference")
        | some p =>
          if p.ID = 0 then
            (w1.log "Product ID not found", .ret ⟨400, .errorMessage "Product Not Exists"⟩)
          else (w1, .ret ⟨200, .product p⟩)

end ProductHandler

/-! ## More fixtures -/

/-- Fixture: a row of table `product` whose id is 0. -/
def productGhost : Product :=
  { ID := 0, Name := "ghost", Description := "", Price := 7, Stock := 3, CategoryID := 2 }

/-- Fixture: a reachable database whose only product has id 0. -/
def storeGhost : Store :=
  { rows := [productGhost], connErr := none, evalExpr := arithEngine, executed := [] }

/-- Fixture: a cache holding, under the key of product 0, the encoding of the product
with id 0. -/
def redisGhost : Client :=
  { entries := [⟨"product:0", "0,3", 600⟩], now := 0, connErr := none, issued := [] }

/-- Fixture: a codec that reads back the encodings of `productOne` and
`productGhost`. -/
def jsonGhost : JSON :=
  { Marshal := fun p => .ok (toString p.ID ++ "," ++ toString p.Stock),
    Unmarshal := fun s =>
      if s == "1,10" then .ok productOne
      else if s == "0,3" then .ok productGhost
      else .error (Err.other "invalid character") }

/-- Fixture: `strconv.ParseInt` on the two path parameters the fixtures use. -/
def parseIntFixture : String → Except Err Int := fun s =>
  if s == "0" then .ok 0
  else if s == "1" then .ok 1
  else .error (Err.other "invalid syntax")

/-- Fixture: a category with id 7 as the cache holds it. -/
def categoryCached : ProductCategory := { ID := 7, Name := "toys" }

/-- Fixture: the category with id 7 as the store holds it. -/
def categoryStored : ProductCategory := { ID := 7, Name := "games" }

/-- Fixture: a reachable database holding the category with id 7. -/
def storeCategory : Store :=
  { rows := [], connErr := none, evalExpr := arithEngine, executed := [],
    categories := [categoryStored] }

/-- Fixture: a cache holding a live entry for category 7. -/
def redisCategory : Client :=
  { entries := [⟨"product_category:7", "7,toys", 60⟩], now := 0, connErr := none,
    issued := [] }

/-- Fixture: a codec for categories that reads back the cached encoding. -/
def categoryJson : CategoryJSON :=
  { Marshal := fun c => .ok (toString c.ID ++ "," ++ c.Name),
    Unmarshal := fun s =>
      if s == "7,toys" then .ok categoryCached else .error (Err.other "invalid character") }

/-- Fixture: a reachable database in which product 1 has stock 2. -/
def storeLow : Store :=
  { rows := [{ productOne with Stock := 2 }], connErr := none, evalExpr := arithEngine,
    executed := [] }

/-- Fixture: a reader that returns the payload `P:5` every time. -/
def readsFive : Nat → ReadResult := fun _ => ReadResult.message "P:5"

/-- Fixture: a reader whose context is cancelled: every read is an error. -/
def readsCancelled : Nat → ReadResult := fun _ => ReadResult.error (Err.other "context canceled")

/-! ## Cache keys as `fmt.Sprintf` builds them -/

/-- Source: `repository/redis.go`, the variable `cacheKeyProductInfo`. -/
def cacheKeyProductInfoFormat : String := "product:%d"

/-- Source: `repository/redis.go`, the variable `cacheKeyProductCategoryInfo`. -/
def cacheKeyProductCategoryInfoFormat : String := "product_category:%d"

/-- An integer operand of `fmt.Sprintf`, with the name of its Go type. -/
structure Operand where
  typeName : String
  value : Int
  deriving DecidableEq, Repr

/-- What `fmt.Sprintf` appends for operands no verb has used:
`%!(EXTRA type=value, ...)`. -/
def sprintfExtra : List Operand → List Char
  | [] => []
  | a :: rest =>
    "%!(EXTRA ".toList ++ (a.typeName ++ "=" ++ toString a.value).toList
      ++ (rest.map (fun b => (", " ++ b.typeName ++ "=" ++ toString b.value).toList)).flatten
      ++ [')']

/-- The function `fmt.Sprintf` on the characters of a format whose only verb is `%d`:
`%d` writes the next operand in decimal (`%!d(MISSING)` when there is none), `%%`
writes a percent sign, every other character is copied. -/
def sprintfChars : List Char → List Operand → List Char
  | [], args => sprintfExtra args
  | '%' :: 'd' :: rest, a :: args => (toString a.value).toList ++ sprintfChars rest args
  | '%' :: 'd' :: rest, [] => "%!d(MISSING)".toList ++ sprintfChars rest []
  | '%' :: '%' :: rest, args => '%' :: sprintfChars rest args
  | c :: rest, args => c :: sprintfChars rest args

/-- The function `fmt.Sprintf(format, operands...)`. -/
def Sprintf (format : String) (args : List Operand) : String :=
  String.mk (sprintfChars format.toList args)

/-- Follows the claim's words ("followed by id in decimal"): the decimal digits of a
natural number, most significant first: one digit below ten, otherwise the digits of
the tenth part followed by the digit of the remainder. The first argument bounds the
number of digits. -/
def decimalNatAux : Nat → Nat → List Char
  | 0, _ => []
  | fuel + 1, n =>
    if n < 10 then [Nat.digitChar n]
    else decimalNatAux fuel (n / 10) ++ [Nat.digitChar (n % 10)]

/-- Follows the claim's words: an integer in decimal, a minus sign before the digits
of a negative one. -/
def decimal (i : Int) : String :=
  if i < 0 then String.mk ('-' :: decimalNatAux (i.natAbs + 1) i.natAbs)
  else String.mk (decimalNatAux (i.natAbs + 1) i.natAbs)

/-! ## The search handler -/

/-- The range of a Go `int` on a 64-bit platform, as a wrap-around of the exact
result. -/
def wrapInt (x : Int) : Int := (x + 2 ^ 63) % 2 ^ 64 - 2 ^ 63

/-- The Go quotient `a / b` on `int`: a run-time panic when `b` is zero, otherwise the
quotient truncated toward zero. -/
def goDiv (a b : Int) : Result Int :=
  if b = 0 then .panic "runtime error: integer divide by zero"
  else .ret (wrapInt (Int.tdiv a b))

/-- The value of a run of decimal digits, `none` when the run is empty or holds
another character. -/
def digitsValue : List Char → Option Nat
  | [] => none
  | cs =>
    cs.foldl
      (fun acc c =>
        match acc with
        | none => none
        | some n => if c.isDigit then some (n * 10 + (c.toNat - '0'.toNat)) else none)
      (some 0)

/-- A parsed value brought into the range of `int`, with the range error of
`strconv` when it was outside. -/
def clampInt (x : Int) : Int × Option Err :=
  if x < -(2 ^ 63) then (-(2 ^ 63), some (Err.other "value out of range"))
  else if 2 ^ 63 - 1 < x then (2 ^ 63 - 1, some (Err.other "value out of range"))
  else (x, none)

/-- The function `strconv.Atoi`: an optional sign and decimal digits; on a syntax
error the value is 0, on a range error the nearest bound, each with an error. -/
def Atoi (s : String) : Int × Option Err :=
  match s.toList with
  | '-' :: ds =>
    match digitsValue ds with
    | some n => clampInt (-(n : Int))
    | none => (0, some (Err.other "invalid syntax"))
  | '+' :: ds =>
    match digitsValue ds with
    | some n => clampInt (n : Int)
    | none => (0, some (Err.other "invalid syntax"))
  | ds =>
    match digitsValue ds with
    | some n => clampInt (n : Int)
    | none => (0, some (Err.other "invalid syntax"))

/-- The method `c.DefaultQuery(key, defaultValue)`: the value of the key when the
query has it, the default otherwise. -/
def DefaultQuery (value : Option String) (defaultValue : String) : String :=
  match value with
  | some v => v
  | none => defaultValue

/-- The query values `SearchProduct` reads, `none` for a key the query does not
have. The two prices, which are floating-point numbers that take no part in the
page arithmetic, are left out. -/
structure SearchQuery where
  name : String
  category : String
  page : Option String
  pageSize : Option String
  orderBy : String
  sort : String
  deriving DecidableEq, Repr

/-- Modelled from the spec: `models.SearchProductParameter` is declared in package
`models`, which is not among the sources; the fields are those the handler sets,
without the two prices (`SortOrder` is the field `Sort`). -/
structure SearchProductParameter where
  Name : String
  Category : String
  Page : Int
  PageSize : Int
  OrderBy : String
  SortOrder : String
  deriving DecidableEq, Repr

/-- Modelled from the spec: `models.SearchProductResponse`, with the fields the
handler sets; `NextPageUrl` is kept as whether it is set. -/
structure SearchProductResponse where
  Products : List Product
  Page : Int
  PageSize : Int
  TotalCount : Int
  TotalPages : Int
  hasNextPageUrl : Bool
  deriving DecidableEq, Repr

/-- What the search handler answers with: an error value with status 500, or the
data with status 200. -/
inductive SearchAnswer where
  | failed (status : Nat) (err : Err)
  | data (status : Nat) (response : SearchProductResponse)
  deriving DecidableEq, Repr

namespace ProductHandler

/-- Source: `handler/handler.go`, `SearchProduct`, given what
`ProductUsecase.SearchProduct` returns for a parameter. The errors of both
`strconv.Atoi` calls are discarded; the quotient is taken whenever the usecase
returned no error. -/
def SearchProduct
    (usecase : SearchProductParameter → List Product × Int × Option Err)
    (w : World) (q : SearchQuery) : World × Result SearchAnswer :=
  let page := (Atoi (DefaultQuery q.page "1")).1
  let pageSize := (Atoi (DefaultQuery q.pageSize "2")).1
  let param : SearchProductParameter :=
    { Name := q.name, Category := q.category, Page := page, PageSize := pageSize,
      OrderBy := q.orderBy, SortOrder := q.sort }
  match usecase param with
  | (_, _, some err) =>
    (w.log "h.ProductUsecase.SearchProduct() got error", .ret (.failed 500 err))
  | (products, totalCount, none) =>
    match goDiv (wrapInt (wrapInt (totalCount + pageSize) - 1)) pageSize with
    | .panic msg => (w, .panic msg)
    | .ret totalPages =>
      (w, .ret (.data 200
        { Products := products, Page := page, PageSize := pageSize,
          TotalCount := totalCount, TotalPages := totalPages,
          hasNextPageUrl := decide (page < totalPages) }))

end ProductHandler

/-- Fixture: a search query with the given `page` and `pageSize` values. -/
def searchQuery (page pageSize : Option String) : SearchQuery :=
  { name := "", category := "", page := page, pageSize := pageSize, orderBy := "", sort := "" }

/-- Fixture: a usecase that finds five products in all and returns no error. -/
def usecaseFive : SearchProductParameter → List Product × Int × Option Err :=
  fun _ => ([productOne, productTwo], 5, none)

/-! ## Lemmas on the stock updates -/

theorem repo_deduct_boot (store : Store) (redis : Client) (productID qty : Int) :
    ProductRepository.DeductProductStockByProductID ⟨InitDB store, redis⟩ productID qty
      = (⟨InitDB store, redis⟩, some (updateChainError store)) := by
  cases h : store.connErr <;>
    simp [ProductRepository.DeductProductStockByProductID, InitDB, DB.Table, DB.WithContext,
      DB.Model, DB.Updates, DB.Where, DB.after, DB.conditions, Statement.empty, Product.zero,
      updateChainError, h]

theorem repo_add_boot (store : Store) (redis : Client) (productID qty : Int) :
    ProductRepository.AddProductStockByProductID ⟨InitDB store, redis⟩ productID qty
      = (⟨InitDB store, redis⟩, some (updateChainError store)) := by
  cases h : store.connErr <;>
    simp [ProductRepository.AddProductStockByProductID, InitDB, DB.Table, DB.WithContext,
      DB.Model, DB.Updates, DB.Where, DB.after, DB.conditions, Statement.empty, Product.zero,
      updateChainError, h]

theorem service_deduct_boot (store : Store) (redis : Client) (logs : List String)
    (spawned : List Goroutine) (productID qty : Int) :
    ProductService.DeductProductStockByProductID ⟨⟨InitDB store, redis⟩, logs, spawned⟩
        productID qty
      = (⟨⟨InitDB store, redis⟩, logs, spawned⟩, some (updateChainError store)) := by
  simp [ProductService.DeductProductStockByProductID, repo_deduct_boot]

theorem service_add_boot (store : Store) (redis : Client) (logs : List String)
    (spawned : List Goroutine) (productID qty : Int) :
    ProductService.AddProductStockByProductID ⟨⟨InitDB store, redis⟩, logs, spawned⟩
        productID qty
      = (⟨⟨InitDB store, redis⟩, logs, spawned⟩, some (updateChainError store)) := by
  simp [ProductService.AddProductStockByProductID, repo_add_boot]

theorem updateStock_boot (store : Store) (redis : Client) (spawned : List Goroutine)
    (products : List ProductStockItem) (logs : List String) :
    ProductUpdateStockConsumer.updateStock ⟨⟨InitDB store, redis⟩, logs, spawned⟩ products
      = ⟨⟨InitDB store, redis⟩, logs ++ products.map updateStockLine, spawned⟩ := by
  induction products generalizing logs with
  | nil => simp [ProductUpdateStockConsumer.updateStock]
  | cons product rest ih =>
    have step := ih (logs ++ [updateStockLine product])
    simp only [ProductUpdateStockConsumer.updateStock] at step ⊢
    simp only [List.foldl_cons, service_deduct_boot, World.log, List.map_cons]
    rw [show updateStockLine product :: List.map updateStockLine rest
          = [updateStockLine product] ++ List.map updateStockLine rest from rfl,
      ← List.append_assoc]
    exact step

theorem rollbackStock_boot (store : Store) (redis : Client) (spawned : List Goroutine)
    (products : List ProductStockItem) (logs : List String) :
    ProductRollbackStockConsumer.rollbackStock ⟨⟨InitDB store, redis⟩, logs, spawned⟩ products
      = ⟨⟨InitDB store, redis⟩, logs, spawned⟩ := by
  induction products with
  | nil => simp [ProductRollbackStockConsumer.rollbackStock]
  | cons product rest ih =>
    simp only [ProductRollbackStockConsumer.rollbackStock] at ih ⊢
    simp only [List.foldl_cons, service_add_boot]
    exact ih

/-! ## Lemmas on the read path -/

theorem selects_id (productID : Int) (row : Product) :
    DB.selects [⟨"id = ?", productID⟩] row = decide (row.ID = productID) := by
  by_cases h : row.ID = productID <;> simp [DB.selects, Cond.holds, h]

theorem lastRow_none (productID : Int) (rows : List Product)
    (h : ∀ row ∈ rows, row.ID ≠ productID) :
    DB.lastRow [⟨"id = ?", productID⟩] rows = none := by
  have hfilter : rows.filter (DB.selects [⟨"id = ?", productID⟩]) = [] := by
    rw [List.filter_eq_nil_iff]
    intro row hrow
    simp [selects_id, h row hrow]
  simp [DB.lastRow, hfilter]

theorem foldl_later_same (p : Product) (l : List Product) (hall : ∀ q ∈ l, q = p) :
    l.foldl DB.later (some p) = some p := by
  induction l with
  | nil => rfl
  | cons q rest ih =>
    have hq : q = p := hall q (List.mem_cons_self _ _)
    subst hq
    simp only [List.foldl_cons, DB.later, le_refl, if_true]
    exact ih (fun r hr => hall r (List.mem_cons_of_mem _ hr))

theorem lastRow_unique (productID : Int) (p : Product) (rows : List Product)
    (hmem : p ∈ rows) (hid : p.ID = productID)
    (huniq : ∀ row ∈ rows, row.ID = productID → row = p) :
    DB.lastRow [⟨"id = ?", productID⟩] rows = some p := by
  have hall : ∀ q ∈ rows.filter (DB.selects [⟨"id = ?", productID⟩]), q = p := by
    intro q hq
    rw [List.mem_filter, selects_id] at hq
    exact huniq q hq.1 (by simpa using hq.2)
  have hin : p ∈ rows.filter (DB.selects [⟨"id = ?", productID⟩]) := by
    rw [List.mem_filter, selects_id]
    exact ⟨hmem, by simpa using hid⟩
  unfold DB.lastRow
  cases hl : rows.filter (DB.selects [⟨"id = ?", productID⟩]) with
  | nil => rw [hl] at hin; cases hin
  | cons q rest =>
    rw [hl] at hall
    have hq : q = p := hall q (List.mem_cons_self _ _)
    subst hq
    simp only [List.foldl_cons, DB.later]
    exact foldl_later_same q rest (fun r hr => hall r (List.mem_cons_of_mem _ hr))

theorem redis_get_miss (c : Client) (key : String) (hup : c.connErr = none)
    (hmiss : c.lookup key = none) :
    c.Get key = ({ c with issued := c.issued ++ [("GET", key)] }, .error Err.redisNil) := by
  simp [Client.Get, hup, hmiss]

theorem redis_get_hit (c : Client) (key : String) (e : Entry) (hup : c.connErr = none)
    (hhit : c.lookup key = some e) :
    c.Get key = ({ c with issued := c.issued ++ [("GET", key)] }, .ok e.value) := by
  simp [Client.Get, hup, hhit]

theorem find_boot (store : Store) (redis : Client) (productID : Int)
    (hdb : store.connErr = none) :
    ProductRepository.FindProductByID ⟨InitDB store, redis⟩ productID
      = (⟨InitDB (store.afterSelect productID), redis⟩,
          (some ((DB.lastRow [⟨"id = ?", productID⟩] store.rows).getD Product.zero), none)) := by
  cases hrow : DB.lastRow [⟨"id = ?", productID⟩] store.rows <;>
    simp [ProductRepository.FindProductByID, InitDB, DB.Table, DB.WithContext, DB.Where,
      DB.Last, DB.after, DB.conditions, Statement.empty, Store.afterSelect, hdb, hrow]

theorem find_boot_down (store : Store) (redis : Client) (productID : Int) (e : Err)
    (hdb : store.connErr = some e) (hne : e ≠ Err.ErrRecordNotFound) :
    ProductRepository.FindProductByID ⟨InitDB store, redis⟩ productID
      = (⟨InitDB store, redis⟩, (none, some e)) := by
  simp [ProductRepository.FindProductByID, InitDB, DB.Table, DB.WithContext, DB.Where,
    DB.Last, DB.after, DB.conditions, Statement.empty, hdb, hne]

theorem get_miss_boot (json : JSON) (store : Store) (redis : Client) (logs : List String)
    (spawned : List Goroutine) (productID : Int)
    (hup : redis.connErr = none) (hmiss : redis.lookup (cacheKeyProductInfo productID) = none)
    (hdb : store.connErr = none) :
    ProductService.GetProductByID json ⟨⟨InitDB store, redis⟩, logs, spawned⟩ productID
      = (⟨⟨InitDB (store.afterSelect productID),
            { redis with issued := redis.issued ++ [("GET", cacheKeyProductInfo productID)] }⟩,
          logs,
          spawned ++ [⟨some ((DB.lastRow [⟨"id = ?", productID⟩] store.rows).getD Product.zero),
            productID⟩]⟩,
         .ret (some ((DB.lastRow [⟨"id = ?", productID⟩] store.rows).getD Product.zero),
           none)) := by
  simp [ProductService.GetProductByID, ProductRepository.GetProductByIDFromRedis,
    redis_get_miss _ _ hup hmiss, Product.zero, find_boot _ _ _ hdb]

/-! ## Claims -/

/-- Claim C1, refuted on the code: when the cache lookup fails with an error other
than a miss, `GetProductByIDFromRedis` returns the nil pointer with the error, and
`GetProductByID`, after logging the error, reads `product.ID` through that pointer.
The call panics for every product id and whatever the store holds; it does not
return what `FindProductByID` returns. Shown for an unreachable cache in general,
and at product 1 for an unreachable cache and for a cached value that does not
decode, where the store lookup returns the product. -/
theorem GetProductByID_cache_error_panics (json : JSON) (w : World) (msg : String)
    (productID : Int) :
    (ProductService.GetProductByID json
        { w with repo := { w.repo with
            Redis := { w.repo.Redis with connErr := some (Err.other msg) } } }
        productID).2
      = Result.panic "invalid memory address or nil pointer dereference"
    ∧ (ProductRepository.FindProductByID ⟨InitDB storeTwo, redisDown⟩ 1).2
      = (some productOne, none)
    ∧ (ProductService.GetProductByID jsonOne (World.boot storeTwo redisDown) 1).2
      = Result.panic "invalid memory address or nil pointer dereference"
    ∧ (ProductService.GetProductByID jsonOne (World.boot storeTwo redisGarbled) 1).2
      = Result.panic "invalid memory address or nil pointer dereference" := by
  refine ⟨?_, by decide, by decide, by decide⟩
  simp [ProductService.GetProductByID, ProductRepository.GetProductByIDFromRedis, Client.Get]

/-- Claim C2, refuted on the code: in `DeductProductStockByProductID` and
`AddProductStockByProductID` the finisher `Updates` runs before `Where` adds the id
condition, so on the handle of `InitDB` the update is refused: for every product
and quantity both calls return an error and leave every row as it was. No call
succeeds, and the stock never becomes `s - q` or `s + q`; at product 1 with stock
10 and quantity 3 the stock stays 10. -/
theorem stock_update_never_succeeds (store : Store) (redis : Client) (logs : List String)
    (spawned : List Goroutine) (p q : Int) :
    (ProductService.DeductProductStockByProductID ⟨⟨InitDB store, redis⟩, logs, spawned⟩ p q).2
      ≠ none
    ∧ (ProductService.DeductProductStockByProductID
        ⟨⟨InitDB store, redis⟩, logs, spawned⟩ p q).1.repo.Database.store.rows = store.rows
    ∧ (ProductService.AddProductStockByProductID ⟨⟨InitDB store, redis⟩, logs, spawned⟩ p q).2
      ≠ none
    ∧ (ProductService.AddProductStockByProductID
        ⟨⟨InitDB store, redis⟩, logs, spawned⟩ p q).1.repo.Database.store.rows = store.rows
    ∧ (ProductService.DeductProductStockByProductID (World.boot storeTwo redisEmpty) 1 3).2
      = some Err.ErrMissingWhereClause
    ∧ stockOf (ProductService.DeductProductStockByProductID
        (World.boot storeTwo redisEmpty) 1 3).1 1 = some 10
    ∧ stockOf (ProductService.AddProductStockByProductID
        (World.boot storeTwo redisEmpty) 1 3).1 1 = some 10 := by
  refine ⟨?_, ?_, ?_, ?_, by decide, by decide, by decide⟩ <;>
    simp only [service_deduct_boot, service_add_boot] <;> simp [InitDB]

/-- Claim C3: for every product id `p` and quantity `q`, after
`DeductProductStockByProductID(p, q)` and after `AddProductStockByProductID(p, q)`,
in the service and in the repository, the stock of every product whose id differs
from `p` is what it was before the call: the rows with another id are the same rows.
(On the handle of `InitDB` the update is refused before it reaches the server, so
the call changes no row.) -/
theorem stock_update_leaves_other_products (store : Store) (redis : Client)
    (logs : List String) (spawned : List Goroutine) (p q P : Int) (_hne : P ≠ p) :
    stockOf (ProductService.DeductProductStockByProductID
        ⟨⟨InitDB store, redis⟩, logs, spawned⟩ p q).1 P
      = stockOf ⟨⟨InitDB store, redis⟩, logs, spawned⟩ P
    ∧ stockOf (ProductService.AddProductStockByProductID
        ⟨⟨InitDB store, redis⟩, logs, spawned⟩ p q).1 P
      = stockOf ⟨⟨InitDB store, redis⟩, logs, spawned⟩ P
    ∧ (ProductRepository.DeductProductStockByProductID
        ⟨InitDB store, redis⟩ p q).1.Database.store.rows.filter (fun row => !(row.ID == p))
      = store.rows.filter (fun row => !(row.ID == p))
    ∧ (ProductRepository.AddProductStockByProductID
        ⟨InitDB store, redis⟩ p q).1.Database.store.rows.filter (fun row => !(row.ID == p))
      = store.rows.filter (fun row => !(row.ID == p)) := by
  refine ⟨?_, ?_, ?_, ?_⟩
  · rw [service_deduct_boot]
  · rw [service_add_boot]
  · rw [repo_deduct_boot]; rfl
  · rw [repo_add_boot]; rfl

theorem stock_update_leaves_other_products_witness :
    (2 : Int) ≠ 1
    ∧ stockOf (ProductService.DeductProductStockByProductID
        ⟨⟨InitDB storeTwo, redisEmpty⟩, [], []⟩ 1 3).1 2
      = stockOf ⟨⟨InitDB storeTwo, redisEmpty⟩, [], []⟩ 2
    ∧ stockOf (ProductService.AddProductStockByProductID
        ⟨⟨InitDB storeTwo, redisEmpty⟩, [], []⟩ 1 3).1 2
      = stockOf ⟨⟨InitDB storeTwo, redisEmpty⟩, [], []⟩ 2
    ∧ (ProductRepository.DeductProductStockByProductID
        ⟨InitDB storeTwo, redisEmpty⟩ 1 3).1.Database.store.rows.filter
          (fun row => !(row.ID == 1))
      = storeTwo.rows.filter (fun row => !(row.ID == 1))
    ∧ (ProductRepository.AddProductStockByProductID
        ⟨InitDB storeTwo, redisEmpty⟩ 1 3).1.Database.store.rows.filter
          (fun row => !(row.ID == 1))
      = storeTwo.rows.filter (fun row => !(row.ID == 1)) :=
  ⟨by decide, stock_update_leaves_other_products storeTwo redisEmpty [] [] 1 3 2 (by decide)⟩

/-- Claim C4, refuted on the code at its witness: both consumers go through every
item of an event whatever fails (the deduction consumer logs one line per item, in
the order of the event) and take the next turn of their loop whatever the turns
before did, but on the handle of `InitDB` every item fails and no row is changed.
For the items `[(1, 3), (99, 1), (2, 2)]` the stock of products 1 and 2 is 10 and 20
after the event as before it, for deduction and rollback alike. -/
theorem partial_failure_event_adjusts_nothing (store : Store) (redis : Client)
    (logs : List String) (spawned : List Goroutine) (products : List ProductStockItem)
    (decode : EventDecoder) (w : World) (reads : List ReadResult) (next : ReadResult) :
    ProductUpdateStockConsumer.Start decode w (reads ++ [next])
      = ProductUpdateStockConsumer.turn decode
          (ProductUpdateStockConsumer.Start decode w reads) next
    ∧ ProductRollbackStockConsumer.Start decode w (reads ++ [next])
      = ProductRollbackStockConsumer.turn decode
          (ProductRollbackStockConsumer.Start decode w reads) next
    ∧ (ProductUpdateStockConsumer.updateStock
        ⟨⟨InitDB store, redis⟩, logs, spawned⟩ products).logs
      = logs ++ products.map updateStockLine
    ∧ (ProductUpdateStockConsumer.updateStock
        ⟨⟨InitDB store, redis⟩, logs, spawned⟩ products).repo.Database.store.rows = store.rows
    ∧ (ProductRollbackStockConsumer.rollbackStock
        ⟨⟨InitDB store, redis⟩, logs, spawned⟩ products).repo.Database.store.rows = store.rows
    ∧ (ProductUpdateStockConsumer.updateStock (World.boot storeTwo redisEmpty)
        [⟨1, 3⟩, ⟨99, 1⟩, ⟨2, 2⟩]).logs
      = ["[KAFKA] Error Update Product Stock Product ID #1",
         "[KAFKA] Error Update Product Stock Product ID #99",
         "[KAFKA] Error Update Product Stock Product ID #2"]
    ∧ stockOf (ProductUpdateStockConsumer.updateStock (World.boot storeTwo redisEmpty)
        [⟨1, 3⟩, ⟨99, 1⟩, ⟨2, 2⟩]) 1 = some 10
    ∧ stockOf (ProductUpdateStockConsumer.updateStock (World.boot storeTwo redisEmpty)
        [⟨1, 3⟩, ⟨99, 1⟩, ⟨2, 2⟩]) 2 = some 20
    ∧ stockOf (ProductRollbackStockConsumer.rollbackStock (World.boot storeTwo redisEmpty)
        [⟨1, 3⟩, ⟨99, 1⟩, ⟨2, 2⟩]) 1 = some 10
    ∧ stockOf (ProductRollbackStockConsumer.rollbackStock (World.boot storeTwo redisEmpty)
        [⟨1, 3⟩, ⟨99, 1⟩, ⟨2, 2⟩]) 2 = some 20 := by
  refine ⟨?_, ?_, ?_, ?_, ?_, by decide, by decide, by decide, by decide, by decide⟩
  · simp [ProductUpdateStockConsumer.Start, List.foldl_append]
  · simp [ProductRollbackStockConsumer.Start, List.foldl_append]
  · rw [updateStock_boot]
  · rw [updateStock_boot]; rfl
  · rw [rollbackStock_boot]; rfl

/-- Claim C5: for every product `P` with stock `s ≥ 0` and every quantity `q` with
`0 ≤ q ≤ s`, one turn of the deduction consumer on the event `[(P, q)]` followed by
one turn of the rollback consumer on the event `[(P, q)]` leaves the stock of `P`
equal to `s`. (On the handle of `InitDB` neither update is executed, so the stock
is `s` after each of the two turns.) -/
theorem net_zero_stock (decode : EventDecoder) (store : Store) (redis : Client)
    (logs : List String) (spawned : List Goroutine) (P s q : Int) (vd vr : String)
    (_hs : 0 ≤ s) (_hq : 0 ≤ q) (_hqs : q ≤ s)
    (hd : decode vd = .ok ⟨[⟨P, q⟩]⟩) (hr : decode vr = .ok ⟨[⟨P, q⟩]⟩)
    (hstock : stockOf ⟨⟨InitDB store, redis⟩, logs, spawned⟩ P = some s) :
    stockOf
      (ProductRollbackStockConsumer.turn decode
        (ProductUpdateStockConsumer.turn decode ⟨⟨InitDB store, redis⟩, logs, spawned⟩
          (.message vd))
        (.message vr)) P = some s := by
  simp only [ProductUpdateStockConsumer.turn, ProductRollbackStockConsumer.turn, hd, hr,
    updateStock_boot, rollbackStock_boot]
  simpa [stockOf] using hstock

theorem net_zero_stock_witness :
    stockOf
      (ProductRollbackStockConsumer.turn decodeFive
        (ProductUpdateStockConsumer.turn decodeFive (World.boot storeTwo redisEmpty)
          (.message "P:5"))
        (.message "P:5")) 1 = some 10 :=
  net_zero_stock decodeFive storeTwo redisEmpty [] [] 1 10 5 "P:5" "P:5"
    (by decide) (by decide) (by decide) rfl rfl (by decide)

/-- Claim C6: for every product id whose row `p` is in the store (the only row with
that id) and for which the cache has no live entry, with both stores reachable and a
codec that decodes the encoding of `p` back to `p`: `GetProductByID` returns `p`
with no error; once the goroutine it started has run (`wait` seconds later),
`GetProductByIDFromRedis` for the same id returns `p` as long as fewer than
`productTTL` seconds have passed since the write, and the sentinel of a miss from
then on. -/
theorem read_through_then_cached (json : JSON) (store : Store) (redis : Client)
    (logs : List String) (productID : Int) (p : Product) (encoded : String) (wait : Nat)
    (hup : redis.connErr = none)
    (hmiss : redis.lookup (cacheKeyProductInfo productID) = none)
    (hdb : store.connErr = none)
    (hmem : p ∈ store.rows) (hid : p.ID = productID)
    (huniq : ∀ row ∈ store.rows, row.ID = productID → row = p)
    (hmar : json.Marshal p = .ok encoded) (hunm : json.Unmarshal encoded = .ok p) :
    (ProductService.GetProductByID json ⟨⟨InitDB store, redis⟩, logs, []⟩ productID).2
      = Result.ret (some p, none)
    ∧ (∀ d : Nat, d < productTTL →
        (ProductRepository.GetProductByIDFromRedis json
          ((((ProductService.GetProductByID json ⟨⟨InitDB store, redis⟩, logs, []⟩
              productID).1.elapse wait).settle json).elapse d).repo productID).2
          = (some p, none))
    ∧ (∀ d : Nat, productTTL ≤ d →
        (ProductRepository.GetProductByIDFromRedis json
          ((((ProductService.GetProductByID json ⟨⟨InitDB store, redis⟩, logs, []⟩
              productID).1.elapse wait).settle json).elapse d).repo productID).2
          = (some Product.zero, none)) := by
  have hrow := lastRow_unique productID p store.rows hmem hid huniq
  rw [get_miss_boot json store redis logs [] productID hup hmiss hdb, hrow]
  refine ⟨rfl, ?_, ?_⟩
  · intro d hd
    simp [World.elapse, World.settle, Goroutine.run, ProductRepository.SetProductByID,
      JSON.MarshalPtr, hmar, Client.SetEx, Client.elapse, hup,
      ProductRepository.GetProductByIDFromRedis, Client.Get, Client.lookup, hd, hunm]
  · intro d hd
    have hnot : ¬ (d < productTTL) := Nat.not_lt.mpr hd
    have hfind : List.find?
        (fun e => e.key == cacheKeyProductInfo productID
          && decide (redis.now + wait + d < e.expireAt))
        (List.filter (fun e => !(e.key == cacheKeyProductInfo productID)) redis.entries)
        = none := by
      rw [List.find?_eq_none]
      intro e he
      rw [List.mem_filter] at he
      have hk : (e.key == cacheKeyProductInfo productID) = false := by simpa using he.2
      simp [hk]
    simp [World.elapse, World.settle, Goroutine.run, ProductRepository.SetProductByID,
      JSON.MarshalPtr, hmar, Client.SetEx, Client.elapse, hup,
      ProductRepository.GetProductByIDFromRedis, Client.Get, Client.lookup, hnot, hfind,
      List.find?_cons]

theorem read_through_then_cached_witness :
    (ProductService.GetProductByID jsonOne ⟨⟨InitDB storeTwo, redisEmpty⟩, [], []⟩ 1).2
      = Result.ret (some productOne, none)
    ∧ (∀ d : Nat, d < productTTL →
        (ProductRepository.GetProductByIDFromRedis jsonOne
          ((((ProductService.GetProductByID jsonOne ⟨⟨InitDB storeTwo, redisEmpty⟩, [], []⟩
              1).1.elapse 3).settle jsonOne).elapse d).repo 1).2
          = (some productOne, none))
    ∧ (∀ d : Nat, productTTL ≤ d →
        (ProductRepository.GetProductByIDFromRedis jsonOne
          ((((ProductService.GetProductByID jsonOne ⟨⟨InitDB storeTwo, redisEmpty⟩, [], []⟩
              1).1.elapse 3).settle jsonOne).elapse d).repo 1).2
          = (some Product.zero, none)) :=
  read_through_then_cached jsonOne storeTwo redisEmpty [] 1 productOne "1,10" 3
    rfl rfl rfl (by decide) rfl (by decide) rfl rfl

/-- Claim C7: for every product id whose live cache entry decodes to a product with
a non-zero `ID`, `GetProductByID` returns that product with no error; the only
thing it does is the `GET`: the database handle (rows and executed statements) and
the cache entries are as before, and no goroutine is started. This holds whatever
the store holds for that id. -/
theorem cache_hit_returns_cached (json : JSON) (w : World) (productID : Int) (e : Entry)
    (cached : Product)
    (hup : w.repo.Redis.connErr = none)
    (hhit : w.repo.Redis.lookup (cacheKeyProductInfo productID) = some e)
    (hdec : json.Unmarshal e.value = .ok cached)
    (hne : cached.ID ≠ 0) :
    (ProductService.GetProductByID json w productID).2 = Result.ret (some cached, none)
    ∧ (ProductService.GetProductByID json w productID).1.repo.Database.store.executed
      = w.repo.Database.store.executed
    ∧ (ProductService.GetProductByID json w productID).1.repo.Database.store.rows
      = w.repo.Database.store.rows
    ∧ (ProductService.GetProductByID json w productID).1.repo.Redis.entries
      = w.repo.Redis.entries
    ∧ (ProductService.GetProductByID json w productID).1.repo.Redis.issued
      = w.repo.Redis.issued ++ [("GET", cacheKeyProductInfo productID)]
    ∧ (ProductService.GetProductByID json w productID).1.spawned = w.spawned := by
  simp [ProductService.GetProductByID, ProductRepository.GetProductByIDFromRedis,
    redis_get_hit _ _ e hup hhit, hdec, hne]

theorem cache_hit_returns_cached_witness :
    (ProductService.GetProductByID jsonOne (World.boot storeChanged redisCached) 1).2
      = Result.ret (some productOne, none)
    ∧ (ProductService.GetProductByID jsonOne
        (World.boot storeChanged redisCached) 1).1.repo.Database.store.executed = []
    ∧ (ProductService.GetProductByID jsonOne
        (World.boot storeChanged redisCached) 1).1.repo.Database.store.rows
      = [{ productOne with Stock := 4 }]
    ∧ (ProductService.GetProductByID jsonOne
        (World.boot storeChanged redisCached) 1).1.repo.Redis.entries
      = [⟨"product:1", "1,10", 600⟩]
    ∧ (ProductService.GetProductByID jsonOne
        (World.boot storeChanged redisCached) 1).1.repo.Redis.issued
      = [] ++ [("GET", cacheKeyProductInfo 1)]
    ∧ (ProductService.GetProductByID jsonOne (World.boot storeChanged redisCached) 1).1.spawned
      = [] :=
  cache_hit_returns_cached jsonOne (World.boot storeChanged redisCached) 1
    ⟨"product:1", "1,10", 600⟩ productOne rfl (by decide) rfl (by decide)

/-- Claim C8 as stated fails: on a cache miss for an id the store does not hold
(product 7), `GetProductByID` returns the sentinel with no error and does start the
write-back goroutine; once it has run, the cache holds the encoded sentinel under
`product:7`. -/
theorem sentinel_write_back_is_scheduled :
    (ProductService.GetProductByID jsonOne (World.boot storeTwo redisEmpty) 7).2
      = Result.ret (some Product.zero, none)
    ∧ (ProductService.GetProductByID jsonOne (World.boot storeTwo redisEmpty) 7).1.spawned
      = [⟨some Product.zero, 7⟩]
    ∧ ¬ ((ProductService.GetProductByID jsonOne (World.boot storeTwo redisEmpty) 7).1.spawned
      = [])
    ∧ ((ProductService.GetProductByID jsonOne
        (World.boot storeTwo redisEmpty) 7).1.settle jsonOne).repo.Redis.entries
      = [⟨"product:7", "0,0", 600⟩] := by
  refine ⟨by decide, by decide, by decide, by decide⟩

/-- Claim C8, amended: on a cache miss for which the store returns the not-found
sentinel (it is reachable and holds no row with the id), `GetProductByID` returns
the sentinel with no error and starts one write-back goroutine for the sentinel. The
write-back is started in both cases: whatever rows the reachable store holds, the
value the store lookup returns is returned with no error and one goroutine is
started for it. -/
theorem write_back_scheduled_after_every_store_read (json : JSON) (store : Store)
    (redis : Client) (logs : List String) (spawned : List Goroutine) (productID : Int)
    (hup : redis.connErr = none)
    (hmiss : redis.lookup (cacheKeyProductInfo productID) = none)
    (hdb : store.connErr = none)
    (hnone : ∀ row ∈ store.rows, row.ID ≠ productID) :
    (ProductRepository.FindProductByID ⟨InitDB store, redis⟩ productID).2
      = (some Product.zero, none)
    ∧ (ProductService.GetProductByID json ⟨⟨InitDB store, redis⟩, logs, spawned⟩
        productID).2 = Result.ret (some Product.zero, none)
    ∧ (ProductService.GetProductByID json ⟨⟨InitDB store, redis⟩, logs, spawned⟩
        productID).1.spawned = spawned ++ [⟨some Product.zero, productID⟩]
    ∧ (∀ rows : List Product, ∃ product : Product,
        (ProductRepository.FindProductByID ⟨InitDB { store with rows := rows }, redis⟩
          productID).2 = (some product, none)
        ∧ (ProductService.GetProductByID json
            ⟨⟨InitDB { store with rows := rows }, redis⟩, logs, spawned⟩ productID).2
          = Result.ret (some product, none)
        ∧ (ProductService.GetProductByID json
            ⟨⟨InitDB { store with rows := rows }, redis⟩, logs, spawned⟩ productID).1.spawned
          = spawned ++ [⟨some product, productID⟩]) := by
  have hrow := lastRow_none productID store.rows hnone
  refine ⟨?_, ?_, ?_, ?_⟩
  · rw [find_boot store redis productID hdb, hrow]
    rfl
  · rw [get_miss_boot json store redis logs spawned productID hup hmiss hdb, hrow]
    rfl
  · rw [get_miss_boot json store redis logs spawned productID hup hmiss hdb, hrow]
    rfl
  · intro rows
    rw [get_miss_boot json { store with rows := rows } redis logs spawned productID hup hmiss
        hdb,
      find_boot { store with rows := rows } redis productID hdb]
    exact ⟨_, rfl, rfl, rfl⟩

theorem write_back_scheduled_after_every_store_read_witness :
    (ProductRepository.FindProductByID ⟨InitDB storeTwo, redisEmpty⟩ 7).2
      = (some Product.zero, none)
    ∧ (ProductService.GetProductByID jsonOne ⟨⟨InitDB storeTwo, redisEmpty⟩, [], []⟩ 7).2
      = Result.ret (some Product.zero, none)
    ∧ (ProductService.GetProductByID jsonOne ⟨⟨InitDB storeTwo, redisEmpty⟩, [], []⟩
        7).1.spawned = [] ++ [⟨some Product.zero, 7⟩]
    ∧ (∀ rows : List Product, ∃ product : Product,
        (ProductRepository.FindProductByID ⟨InitDB { storeTwo with rows := rows }, redisEmpty⟩
          7).2 = (some product, none)
        ∧ (ProductService.GetProductByID jsonOne
            ⟨⟨InitDB { storeTwo with rows := rows }, redisEmpty⟩, [], []⟩ 7).2
          = Result.ret (some product, none)
        ∧ (ProductService.GetProductByID jsonOne
            ⟨⟨InitDB { storeTwo with rows := rows }, redisEmpty⟩, [], []⟩ 7).1.spawned
          = [] ++ [⟨some product, 7⟩]) :=
  write_back_scheduled_after_every_store_read jsonOne storeTwo redisEmpty [] [] 7 rfl rfl rfl
    (by decide)

/-- Claim C9: for every product id, when the cache misses and the store lookup
fails with an error `e` other than record-not-found, `GetProductByID` of the service
and of the usecase return the nil entity with `e`. That result differs from the
not-found result, the zero-ID sentinel with a nil error, which is what both return
when the store is reachable and its rows (`absent`) include none with the id. -/
theorem store_error_is_returned (json : JSON) (store : Store) (redis : Client)
    (logs : List String) (spawned : List Goroutine) (productID : Int) (e : Err)
    (hup : redis.connErr = none)
    (hmiss : redis.lookup (cacheKeyProductInfo productID) = none)
    (hdb : store.connErr = some e) (hne : e ≠ Err.ErrRecordNotFound)
    (absent : List Product) (hnone : ∀ row ∈ absent, row.ID ≠ productID) :
    (ProductRepository.FindProductByID ⟨InitDB store, redis⟩ productID).2 = (none, some e)
    ∧ (ProductService.GetProductByID json ⟨⟨InitDB store, redis⟩, logs, spawned⟩ productID).2
      = Result.ret (none, some e)
    ∧ (ProductUsecase.GetProductByID json ⟨⟨InitDB store, redis⟩, logs, spawned⟩ productID).2
      = Result.ret (none, some e)
    ∧ (ProductService.GetProductByID json
        ⟨⟨InitDB { store with connErr := none, rows := absent }, redis⟩, logs, spawned⟩
        productID).2 = Result.ret (some Product.zero, none)
    ∧ (ProductUsecase.GetProductByID json
        ⟨⟨InitDB { store with connErr := none, rows := absent }, redis⟩, logs, spawned⟩
        productID).2 = Result.ret (some Product.zero, none)
    ∧ (Result.ret (none, some e) : Result (Option Product × Option Err))
      ≠ Result.ret (some Product.zero, none) := by
  have hsvc : (ProductService.GetProductByID json ⟨⟨InitDB store, redis⟩, logs, spawned⟩
      productID).2 = Result.ret (none, some e) := by
    simp [ProductService.GetProductByID, ProductRepository.GetProductByIDFromRedis,
      redis_get_miss _ _ hup hmiss, Product.zero, find_boot_down _ _ _ e hdb hne]
  have hget := get_miss_boot json { store with connErr := none, rows := absent } redis logs
    spawned productID hup hmiss rfl
  have hrow : DB.lastRow [⟨"id = ?", productID⟩] absent = none :=
    lastRow_none productID absent hnone
  simp only [hrow, Option.getD_none] at hget
  refine ⟨?_, hsvc, ?_, by rw [hget], ?_, ?_⟩
  · rw [find_boot_down store redis productID e hdb hne]
  · cases hres : ProductService.GetProductByID json ⟨⟨InitDB store, redis⟩, logs, spawned⟩
      productID with
    | mk w1 res =>
      rw [hres] at hsvc
      simp only at hsvc
      simp [ProductUsecase.GetProductByID, hres, hsvc]
  · simp [ProductUsecase.GetProductByID, hget]
  · intro h
    cases h

theorem store_error_is_returned_witness :
    (ProductRepository.FindProductByID ⟨InitDB storeDown, redisEmpty⟩ 1).2
      = (none, some (Err.other "connection refused"))
    ∧ (ProductService.GetProductByID jsonOne ⟨⟨InitDB storeDown, redisEmpty⟩, [], []⟩ 1).2
      = Result.ret (none, some (Err.other "connection refused"))
    ∧ (ProductUsecase.GetProductByID jsonOne ⟨⟨InitDB storeDown, redisEmpty⟩, [], []⟩ 1).2
      = Result.ret (none, some (Err.other "connection refused"))
    ∧ (ProductService.GetProductByID jsonOne
        ⟨⟨InitDB { storeDown with connErr := none, rows := [productTwo] }, redisEmpty⟩, [], []⟩
        1).2 = Result.ret (some Product.zero, none)
    ∧ (ProductUsecase.GetProductByID jsonOne
        ⟨⟨InitDB { storeDown with connErr := none, rows := [productTwo] }, redisEmpty⟩, [], []⟩
        1).2 = Result.ret (some Product.zero, none)
    ∧ (Result.ret (none, some (Err.other "connection refused")) :
        Result (Option Product × Option Err))
      ≠ Result.ret (some Product.zero, none) :=
  store_error_is_returned jsonOne storeDown redisEmpty [] [] 1 (Err.other "connection refused")
    rfl rfl rfl (by decide) [productTwo] (by decide)

theorem run_spawned (json : JSON) (w : World) (g : Goroutine) :
    (Goroutine.run json w g).spawned = w.spawned := by
  unfold Goroutine.run
  cases (w.repo.SetProductByID json g.product g.productID) with
  | mk repo err => cases err <;> rfl

theorem foldl_run_spawned (json : JSON) (l : List Goroutine) (w : World) :
    (l.foldl (Goroutine.run json) w).spawned = w.spawned := by
  induction l generalizing w with
  | nil => rfl
  | cons g rest ih => simp only [List.foldl_cons, ih, run_spawned]

theorem run_redis (json : JSON) (w : World) (g : Goroutine) :
    (Goroutine.run json w g).repo.Redis
      = (w.repo.SetProductByID json g.product g.productID).1.Redis := by
  unfold Goroutine.run
  cases (w.repo.SetProductByID json g.product g.productID) with
  | mk repo err => cases err <;> rfl

theorem GetProductByID_spawns_at_most_one (json : JSON) (w : World) (productID : Int) :
    (ProductService.GetProductByID json w productID).1.spawned = w.spawned
      ∨ ∃ product, (ProductService.GetProductByID json w productID).1.spawned
          = w.spawned ++ [⟨product, productID⟩] := by
  unfold ProductService.GetProductByID
  cases w.repo.GetProductByIDFromRedis json productID with
  | mk repo pe =>
    obtain ⟨product, err⟩ := pe
    cases product with
    | none => left; cases err <;> rfl
    | some cached =>
      by_cases hid : cached.ID = 0
      · simp only [hid, ne_eq, not_true_eq_false, if_false]
        split
        · left; cases err <;> rfl
        · right; exact ⟨_, by cases err <;> rfl⟩
      · left
        simp only [ne_eq, hid, not_false_eq_true, if_true]
        cases err <;> rfl

/-- Claim C10: the result of `GetProductByID` is the same whatever the write-back
does. For every world, product id, encoder and later state of the cache (it may have
become unreachable by the time the goroutine runs), the caller gets what
`GetProductByID` computed; the call starts at most one goroutine; a goroutine makes
exactly one call of `SetProductByID`, which issues one `SETEX`, or none when the
encoding failed; and once the goroutines have run none is left to run again. -/
theorem write_back_outcome_never_reaches_caller (json : JSON)
    (marshal : Product → Except Err String) (w : World) (productID : Int)
    (afterwards : Client → Client) :
    (requestThenWriteBack { json with Marshal := marshal } w productID afterwards).2
      = (ProductService.GetProductByID json w productID).2
    ∧ ((ProductService.GetProductByID json w productID).1.spawned = w.spawned
      ∨ ∃ product, (ProductService.GetProductByID json w productID).1.spawned
          = w.spawned ++ [⟨product, productID⟩])
    ∧ (requestThenWriteBack { json with Marshal := marshal } w productID afterwards).1.spawned
      = []
    ∧ (∀ (w2 : World) (g : Goroutine),
        (Goroutine.run json w2 g).repo.Redis
          = (w2.repo.SetProductByID json g.product g.productID).1.Redis
        ∧ (Goroutine.run json w2 g).spawned = w2.spawned
        ∧ (setExCount (Goroutine.run json w2 g).repo.Redis = setExCount w2.repo.Redis + 1
          ∨ (setExCount (Goroutine.run json w2 g).repo.Redis = setExCount w2.repo.Redis
            ∧ ∃ err, json.MarshalPtr g.product = .error err))) := by
  refine ⟨rfl, GetProductByID_spawns_at_most_one json w productID, ?_, ?_⟩
  · simp only [requestThenWriteBack, World.settle]
    rw [foldl_run_spawned]
  · intro w2 g
    refine ⟨run_redis json w2 g, run_spawned json w2 g, ?_⟩
    rw [run_redis]
    cases hm : json.MarshalPtr g.product with
    | error err =>
      right
      simp [ProductRepository.SetProductByID, hm]
    | ok encoded =>
      left
      cases hc : w2.repo.Redis.connErr <;>
        simp [ProductRepository.SetProductByID, hm, Client.SetEx, hc, setExCount,
          List.filter_append]

/-- Claim C11, refuted on the code: the context the write-back goroutine gets is
`context.WithValue(ctx, context.Background(), ...)`, a child of the request's
context with `context.Background()` as its key. It is done exactly when the
request's context is: for the context `RequestLogger` builds, it is not done while
the request runs, done once the deferred cancel has been called, and done once the
two seconds have passed. A goroutine that runs after the cancel fails its cache
write: for product 1 the cache stays empty and the failure is logged. -/
theorem write_back_context_is_child_of_request (ctx : Context) (t : Moment) :
    (ctxConcurrent ctx).Done t = ctx.Done t
    ∧ (ctxConcurrent (requestContext 0 1 "req-1")).Done ⟨1, []⟩ = false
    ∧ (ctxConcurrent (requestContext 0 1 "req-1")).Done ⟨1, [1]⟩ = true
    ∧ (ctxConcurrent (requestContext 0 1 "req-1")).Done ⟨2, []⟩ = true
    ∧ (Context.WithValue Context.Background (CtxKey.str "request_id") (some "req-1")).Done
        ⟨2, [1]⟩ = false
    ∧ (requestThenWriteBack jsonOne (World.boot storeTwo redisEmpty) 1
        (fun c => c.withContext (ctxConcurrent (requestContext 0 1 "req-1")) ⟨1, [1]⟩)).2
      = Result.ret (some productOne, none)
    ∧ (requestThenWriteBack jsonOne (World.boot storeTwo redisEmpty) 1
        (fun c => c.withContext (ctxConcurrent (requestContext 0 1 "req-1"))
          ⟨1, [1]⟩)).1.repo.Redis.entries = []
    ∧ (requestThenWriteBack jsonOne (World.boot storeTwo redisEmpty) 1
        (fun c => c.withContext (ctxConcurrent (requestContext 0 1 "req-1"))
          ⟨1, [1]⟩)).1.logs
      = ["s.ProductRepository.SetProductByID() got error, productID 1"] := by
  refine ⟨rfl, by decide, by decide, by decide, by decide, by decide, by decide, by decide⟩

theorem category_find_result (w : World) (productCategoryID : Int) :
    (ProductService.GetProductCategoryByID w productCategoryID).2
      = (w.repo.FindProductCategoryByID productCategoryID).2
    ∧ (ProductService.GetProductCategoryByID w productCategoryID).1.repo.Redis
      = w.repo.Redis := by
  unfold ProductService.GetProductCategoryByID ProductRepository.FindProductCategoryByID
  cases ((w.repo.Database.WithContext.Table "product_category").Where "id = ?"
      productCategoryID).LastCategory with
  | mk tx productCategory =>
    cases htx : tx.Error with
    | none => simp [htx]
    | some err =>
      by_cases hnf : err = Err.ErrRecordNotFound <;> simp [htx, hnf]

/-- Claim C12, refuted on the code: `ProductService.GetProductCategoryByID` never
looks at the cache. For every world and category id it issues no cache command and
returns what `FindProductCategoryByID` returns. With category 7 cached as `toys`
(non-zero id, live entry, which `GetProductCategoryByIDFromRedis` decodes) and
stored as `games`, it executes a `SELECT` and returns `games`; with no row in the
store it returns the sentinel although the entry is cached. -/
theorem category_lookup_ignores_cache (w : World) (productCategoryID : Int) :
    (ProductService.GetProductCategoryByID w productCategoryID).1.repo.Redis = w.repo.Redis
    ∧ (ProductService.GetProductCategoryByID w productCategoryID).2
      = (w.repo.FindProductCategoryByID productCategoryID).2
    ∧ (ProductRepository.GetProductCategoryByIDFromRedis categoryJson
        ⟨InitDB storeCategory, redisCategory⟩ 7).2 = (some categoryCached, none)
    ∧ (ProductService.GetProductCategoryByID (World.boot storeCategory redisCategory) 7).2
      = (some categoryStored, none)
    ∧ (ProductService.GetProductCategoryByID
        (World.boot storeCategory redisCategory) 7).1.repo.Database.store.executed
      = [("SELECT", [⟨"id = ?", 7⟩])]
    ∧ (ProductService.GetProductCategoryByID
        (World.boot storeCategory redisCategory) 7).1.repo.Redis.issued = []
    ∧ (ProductService.GetProductCategoryByID (World.boot storeTwo redisCategory) 7).2
      = (some ProductCategory.zero, none) := by
  refine ⟨(category_find_result w productCategoryID).2,
    (category_find_result w productCategoryID).1,
    by decide, by decide, by decide, by decide, by decide⟩

/-- Claim C13, refuted on the code: on the handle of `InitDB` no item of an event
applies, so a second delivery changes the stock no more than the first. For every
event, both deliveries go through every item (the deduction consumer logs each item
twice) and the rows are as before; after two deliveries of the deduction event
`[(1, 3)]` the stock of product 1 is 10, not 4, and after two deliveries of the
rollback event it is 10, not 16. -/
theorem redelivery_changes_no_stock (store : Store) (redis : Client) (logs : List String)
    (spawned : List Goroutine) (products : List ProductStockItem) :
    (ProductUpdateStockConsumer.updateStock
        (ProductUpdateStockConsumer.updateStock ⟨⟨InitDB store, redis⟩, logs, spawned⟩ products)
        products).repo.Database.store.rows = store.rows
    ∧ (ProductUpdateStockConsumer.updateStock
        (ProductUpdateStockConsumer.updateStock ⟨⟨InitDB store, redis⟩, logs, spawned⟩ products)
        products).logs
      = logs ++ products.map updateStockLine ++ products.map updateStockLine
    ∧ (ProductRollbackStockConsumer.rollbackStock
        (ProductRollbackStockConsumer.rollbackStock ⟨⟨InitDB store, redis⟩, logs, spawned⟩
          products)
        products).repo.Database.store.rows = store.rows
    ∧ stockOf (ProductUpdateStockConsumer.updateStock
        (ProductUpdateStockConsumer.updateStock (World.boot storeTwo redisEmpty) [⟨1, 3⟩])
        [⟨1, 3⟩]) 1 = some 10
    ∧ stockOf (ProductRollbackStockConsumer.rollbackStock
        (ProductRollbackStockConsumer.rollbackStock (World.boot storeTwo redisEmpty) [⟨1, 3⟩])
        [⟨1, 3⟩]) 1 = some 10 := by
  refine ⟨?_, ?_, ?_, by decide, by decide⟩
  · rw [updateStock_boot, updateStock_boot]; rfl
  · rw [updateStock_boot, updateStock_boot]
  · rw [rollbackStock_boot, rollbackStock_boot]; rfl

theorem update_body_next (decode : EventDecoder) (w : World) (r : ReadResult) :
    ProductUpdateStockConsumer.body decode w r
      = (ProductUpdateStockConsumer.turn decode w r, Flow.next) := by
  unfold ProductUpdateStockConsumer.body ProductUpdateStockConsumer.turn
  cases r with
  | error err => rfl
  | message value => cases h : decode value <;> simp [h]

theorem rollback_body_next (decode : EventDecoder) (w : World) (r : ReadResult) :
    ProductRollbackStockConsumer.body decode w r
      = (ProductRollbackStockConsumer.turn decode w r, Flow.next) := by
  unfold ProductRollbackStockConsumer.body ProductRollbackStockConsumer.turn
  cases r with
  | error err => rfl
  | message value => cases h : decode value <;> simp [h]

theorem loopFor_never_exits (body : World → ReadResult → World × Flow)
    (hnext : ∀ w r, (body w r).2 = Flow.next) (reads : Nat → ReadResult) (fuel : Nat) :
    ∀ (i : Nat) (w : World), loopFor body reads fuel i w = none := by
  induction fuel with
  | zero => intro i w; rfl
  | succ n ih =>
    intro i w
    have h := hnext w (reads i)
    cases hb : body w (reads i) with
    | mk w1 flow =>
      rw [hb] at h
      simp only at h
      subst h
      simp only [loopFor, hb]
      exact ih (i + 1) w1

theorem update_StartFor_none (decode : EventDecoder) (reads : Nat → ReadResult) (fuel : Nat)
    (w : World) : ProductUpdateStockConsumer.StartFor decode reads fuel w = none := by
  unfold ProductUpdateStockConsumer.StartFor
  exact loopFor_never_exits _ (fun w r => by rw [update_body_next]) reads fuel 0 _

theorem rollback_StartFor_none (decode : EventDecoder) (reads : Nat → ReadResult)
    (fuel : Nat) (w : World) :
    ProductRollbackStockConsumer.StartFor decode reads fuel w = none := by
  unfold ProductRollbackStockConsumer.StartFor
  exact loopFor_never_exits _ (fun w r => by rw [rollback_body_next]) reads fuel 0 _

/-- Claim C14: for every decoder, every sequence of reader results (messages,
payloads that do not decode, read errors), every world (hence every outcome of the
stock updates) and every number of turns, neither `Start` has returned: every turn
of either loop ends by taking the next turn, and its effect is that of `turn`. With
a reader whose context is cancelled, so that every read fails, the loops are still
running after any number of turns. -/
theorem consumer_loops_never_return (decode : EventDecoder) (reads : Nat → ReadResult)
    (fuel : Nat) (w : World) (r : ReadResult) :
    ProductUpdateStockConsumer.StartFor decode reads fuel w = none
    ∧ ProductRollbackStockConsumer.StartFor decode reads fuel w = none
    ∧ ProductUpdateStockConsumer.body decode w r
      = (ProductUpdateStockConsumer.turn decode w r, Flow.next)
    ∧ ProductRollbackStockConsumer.body decode w r
      = (ProductRollbackStockConsumer.turn decode w r, Flow.next)
    ∧ ProductUpdateStockConsumer.StartFor decode readsCancelled fuel w = none
    ∧ ProductRollbackStockConsumer.StartFor decode readsCancelled fuel w = none :=
  ⟨update_StartFor_none decode reads fuel w, rollback_StartFor_none decode reads fuel w,
    update_body_next decode w r, rollback_body_next decode w r,
    update_StartFor_none decode readsCancelled fuel w,
    rollback_StartFor_none decode readsCancelled fuel w⟩

/-- Claim C15: in every execution of `main`, however long the loop is followed, the
rollback consumer's `Start`, `routes.SetupRoutes` and `router.Run` are never
entered; when the three resources come up, the last statement entered is the
deduction consumer's `Start`, which is called synchronously and does not return. -/
theorem main_never_passes_update_consumer (env : Boot) (fuel : Nat) :
    MainStep.RollbackStockStart ∉ main env fuel
    ∧ MainStep.SetupRoutes ∉ main env fuel
    ∧ MainStep.routerRun ∉ main env fuel
    ∧ MainStep.NewProductRollbackStockConsumer ∉ main env fuel
    ∧ main { env with configOk := true, redisOk := true, dbOk := true } fuel
      = mainUntilUpdateStockStart
    ∧ (main { env with configOk := true, redisOk := true, dbOk := true } fuel).getLast?
      = some MainStep.UpdateStockStart := by
  have hboot : main { env with configOk := true, redisOk := true, dbOk := true } fuel
      = mainUntilUpdateStockStart := by
    simp [main, update_StartFor_none]
  have hcases : main env fuel = [MainStep.LoadConfig]
      ∨ main env fuel = [MainStep.LoadConfig, MainStep.InitRedis]
      ∨ main env fuel = [MainStep.LoadConfig, MainStep.InitRedis, MainStep.InitDB]
      ∨ main env fuel = mainUntilUpdateStockStart := by
    unfold main
    cases env.configOk <;> cases env.redisOk <;> cases env.dbOk <;>
      simp [update_StartFor_none]
  refine ⟨?_, ?_, ?_, ?_, hboot, ?_⟩
  · rcases hcases with h | h | h | h <;> rw [h] <;> decide
  · rcases hcases with h | h | h | h <;> rw [h] <;> decide
  · rcases hcases with h | h | h | h <;> rw [h] <;> decide
  · rcases hcases with h | h | h | h <;> rw [h] <;> decide
  · rw [hboot]; decide

theorem redis_get_database (json : JSON) (r : ProductRepository) (productID : Int) :
    (r.GetProductByIDFromRedis json productID).1.Database = r.Database := by
  unfold ProductRepository.GetProductByIDFromRedis
  simp only
  split
  · split <;> rfl
  · split <;> rfl

theorem get_after_zero (json : JSON) (db : DB) (c : Client) (logs : List String)
    (spawned : List Goroutine) (productID : Int) (cached : Product) (hc : cached.ID = 0)
    (hget : (ProductRepository.GetProductByIDFromRedis json ⟨db, c⟩ productID).2
      = (some cached, none)) :
    (ProductService.GetProductByID json ⟨⟨db, c⟩, logs, spawned⟩ productID).2
      = (match ((db.WithContext.Table "product").Where "id = ?" productID).Last.1.Error with
         | some err =>
           if err = Err.ErrRecordNotFound then Result.ret (some Product.zero, none)
           else Result.ret (none, some err)
         | none =>
           Result.ret
             (some ((db.WithContext.Table "product").Where "id = ?" productID).Last.2, none)) := by
  have hdb := redis_get_database json ⟨db, c⟩ productID
  unfold ProductService.GetProductByID
  cases hr : ProductRepository.GetProductByIDFromRedis json ⟨db, c⟩ productID with
  | mk repo pe =>
    rw [hr] at hget hdb
    simp only at hget hdb
    subst hget
    simp only [hc, ne_eq, not_true_eq_false, if_false, ProductRepository.FindProductByID, hdb]
    cases hL : ((db.WithContext.Table "product").Where "id = ?" productID).Last with
    | mk tx product =>
      cases hE : tx.Error with
      | none => simp [hE]
      | some err => by_cases hnf : err = Err.ErrRecordNotFound <;> simp [hE, hnf]

/-- Claim C16: for every world and every product value with `ID` 0 that
`GetProductByID` returns with no error, whatever its other fields and whatever the
cache holds, `GetProductInfo` answers with status 400 and `Product Not Exists`,
which is also its answer when the store holds no row with the id (`absent`); and in
every world `wc` whose cache holds a live entry that decodes to a product with `ID`
0, the entry is treated as a miss: `GetProductByID` returns what it returns when the
cache holds no entry at all. -/
theorem zero_id_is_not_found (ParseInt : String → Except Err Int) (json : JSON) (w wc : World)
    (productIDstr : String) (productID : Int) (p : Product)
    (store : Store) (redis : Client) (absent : List Product) (e : Entry) (cached : Product)
    (hparse : ParseInt productIDstr = .ok productID)
    (hget : (ProductUsecase.GetProductByID json w productID).2 = Result.ret (some p, none))
    (hzero : p.ID = 0)
    (hup : redis.connErr = none)
    (hmiss : redis.lookup (cacheKeyProductInfo productID) = none)
    (hdb : store.connErr = none)
    (hnone : ∀ row ∈ absent, row.ID ≠ productID)
    (hhit : wc.repo.Redis.lookup (cacheKeyProductInfo productID) = some e)
    (hreach : wc.repo.Redis.connErr = none)
    (hdec : json.Unmarshal e.value = .ok cached)
    (hcached : cached.ID = 0) :
    (ProductHandler.GetProductInfo ParseInt json w productIDstr).2
      = Result.ret ⟨400, ResponseBody.errorMessage "Product Not Exists"⟩
    ∧ (ProductHandler.GetProductInfo ParseInt json
        ⟨⟨InitDB { store with rows := absent }, redis⟩, [], []⟩ productIDstr).2
      = Result.ret ⟨400, ResponseBody.errorMessage "Product Not Exists"⟩
    ∧ (ProductService.GetProductByID json wc productID).2
      = (ProductService.GetProductByID json
          { wc with repo := { wc.repo with Redis := { wc.repo.Redis with entries := [] } } }
          productID).2 := by
  refine ⟨?_, ?_, ?_⟩
  · cases hr : ProductUsecase.GetProductByID json w productID with
    | mk w1 res =>
      rw [hr] at hget
      simp only at hget
      subst hget
      simp [ProductHandler.GetProductInfo, hparse, hr, hzero]
  · have hsvc := get_miss_boot json { store with rows := absent } redis [] [] productID hup
      hmiss hdb
    have hrow : DB.lastRow [⟨"id = ?", productID⟩] absent = none :=
      lastRow_none productID absent hnone
    simp only [hrow, Option.getD_none] at hsvc
    simp [ProductHandler.GetProductInfo, hparse, ProductUsecase.GetProductByID, hsvc,
      Product.zero]
  · have hleft : (ProductRepository.GetProductByIDFromRedis json
        ⟨wc.repo.Database, wc.repo.Redis⟩ productID).2 = (some cached, none) := by
      simp [ProductRepository.GetProductByIDFromRedis, redis_get_hit _ _ e hreach hhit, hdec]
    have hright : (ProductRepository.GetProductByIDFromRedis json
        ⟨wc.repo.Database, { wc.repo.Redis with entries := [] }⟩ productID).2
          = (some Product.zero, none) := by
      simp [ProductRepository.GetProductByIDFromRedis, Client.Get, Client.lookup, hreach]
    have h1 := get_after_zero json wc.repo.Database wc.repo.Redis wc.logs wc.spawned productID
      cached hcached hleft
    have h2 := get_after_zero json wc.repo.Database { wc.repo.Redis with entries := [] }
      wc.logs wc.spawned productID Product.zero rfl hright
    exact h1.trans h2.symm

theorem zero_id_is_not_found_witness :
    (ProductUsecase.GetProductByID jsonGhost (World.boot storeGhost redisEmpty) 0).2
      = Result.ret (some productGhost, none)
    ∧ redisEmpty.lookup (cacheKeyProductInfo 0) = none
    ∧ (ProductHandler.GetProductInfo parseIntFixture jsonGhost
        (World.boot storeGhost redisEmpty) "0").2
      = Result.ret ⟨400, ResponseBody.errorMessage "Product Not Exists"⟩
    ∧ (ProductHandler.GetProductInfo parseIntFixture jsonGhost
        ⟨⟨InitDB { storeGhost with rows := [productOne] }, redisEmpty⟩, [], []⟩ "0").2
      = Result.ret ⟨400, ResponseBody.errorMessage "Product Not Exists"⟩
    ∧ (ProductService.GetProductByID jsonGhost ⟨⟨InitDB storeGhost, redisGhost⟩, [], []⟩ 0).2
      = (ProductService.GetProductByID jsonGhost
          { (⟨⟨InitDB storeGhost, redisGhost⟩, [], []⟩ : World) with
            repo := { Database := InitDB storeGhost,
                      Redis := { redisGhost with entries := [] } } }
          0).2 :=
  ⟨by decide, by decide,
    zero_id_is_not_found parseIntFixture jsonGhost (World.boot storeGhost redisEmpty)
      ⟨⟨InitDB storeGhost, redisGhost⟩, [], []⟩
      "0" 0 productGhost storeGhost redisEmpty [productOne] ⟨"product:0", "0,3", 600⟩
      productGhost
      rfl (by decide) rfl rfl rfl rfl (by decide) (by decide) rfl rfl rfl⟩

/-- Claim C17: none of the operations that write to the store touches the cache. For
every world and every argument, after `DeductProductStockByProductID`,
`AddProductStockByProductID`, `CreateNewProduct`, `EditProdut`, `DeleteProduct`,
`CreateNewProductCategory`, `EditProductCategory` and `DeleteProductCategory` the
Redis client is as before: the same entries at the same clock (so every key holds
the same value or the same absence) and no command issued; and no goroutine is
started that could write to it later. Deleting product 1 removes its row and leaves
its cache entry in place. -/
theorem store_writes_leave_cache (w : World) (id qty : Int) (product : Product)
    (category : ProductCategory) :
    ((ProductService.DeductProductStockByProductID w id qty).1.repo.Redis = w.repo.Redis
      ∧ (ProductService.DeductProductStockByProductID w id qty).1.spawned = w.spawned)
    ∧ ((ProductService.AddProductStockByProductID w id qty).1.repo.Redis = w.repo.Redis
      ∧ (ProductService.AddProductStockByProductID w id qty).1.spawned = w.spawned)
    ∧ ((ProductService.CreateNewProduct w product).1.repo.Redis = w.repo.Redis
      ∧ (ProductService.CreateNewProduct w product).1.spawned = w.spawned)
    ∧ ((ProductService.EditProdut w product).1.repo.Redis = w.repo.Redis
      ∧ (ProductService.EditProdut w product).1.spawned = w.spawned)
    ∧ ((ProductService.DeleteProduct w id).1.repo.Redis = w.repo.Redis
      ∧ (ProductService.DeleteProduct w id).1.spawned = w.spawned)
    ∧ ((ProductService.CreateNewProductCategory w category).1.repo.Redis = w.repo.Redis
      ∧ (ProductService.CreateNewProductCategory w category).1.spawned = w.spawned)
    ∧ ((ProductService.EditProductCategory w category).1.repo.Redis = w.repo.Redis
      ∧ (ProductService.EditProductCategory w category).1.spawned = w.spawned)
    ∧ ((ProductService.DeleteProductCategory w id).1.repo.Redis = w.repo.Redis
      ∧ (ProductService.DeleteProductCategory w id).1.spawned = w.spawned)
    ∧ (ProductService.DeleteProduct (World.boot storeTwo redisCached) 1).1.repo.Database.store.rows
      = [productTwo]
    ∧ (ProductService.DeleteProduct (World.boot storeTwo redisCached) 1).1.repo.Redis.lookup
        "product:1" = some ⟨"product:1", "1,10", 600⟩ := by
  refine ⟨?_, ?_, ?_, ?_, ?_, ?_, ?_, ?_, by decide, by decide⟩
  · unfold ProductService.DeductProductStockByProductID
      ProductRepository.DeductProductStockByProductID
    simp only
    split <;> split <;> exact ⟨rfl, rfl⟩
  · unfold ProductService.AddProductStockByProductID
      ProductRepository.AddProductStockByProductID
    simp only
    split <;> split <;> exact ⟨rfl, rfl⟩
  · unfold ProductService.CreateNewProduct ProductRepository.InsertNewProduct
    simp only
    split <;> split <;> exact ⟨rfl, rfl⟩
  · unfold ProductService.EditProdut ProductRepository.UpdateProduct
    simp only
    split <;> split <;> exact ⟨rfl, rfl⟩
  · unfold ProductService.DeleteProduct ProductRepository.DeleteProduct
    simp only
    split <;> split <;> exact ⟨rfl, rfl⟩
  · unfold ProductService.CreateNewProductCategory ProductRepository.InsertNewProductCategory
    simp only
    split <;> split <;> exact ⟨rfl, rfl⟩
  · unfold ProductService.EditProductCategory ProductRepository.UpdateProductCategory
    simp only
    split <;> split <;> exact ⟨rfl, rfl⟩
  · unfold ProductService.DeleteProductCategory ProductRepository.DeleteProductCategory
    simp only
    split <;> split <;> exact ⟨rfl, rfl⟩

theorem add_logs (w : World) (productID qty : Int) :
    (ProductService.AddProductStockByProductID w productID qty).1.logs = w.logs := by
  unfold ProductService.AddProductStockByProductID
  simp only
  split <;> rfl

theorem rollbackStock_logs (products : List ProductStockItem) :
    ∀ w : World, (ProductRollbackStockConsumer.rollbackStock w products).logs = w.logs := by
  induction products with
  | nil => intro w; rfl
  | cons product rest ih =>
    intro w
    simp only [ProductRollbackStockConsumer.rollbackStock, List.foldl_cons] at ih ⊢
    cases hadd : ProductService.AddProductStockByProductID w product.ProductID product.Qty with
    | mk w1 err =>
      have hl := add_logs w product.ProductID product.Qty
      rw [hadd] at hl
      simp only at hl
      cases err with
      | none => simp only [ih w1, hl]
      | some e => simp only [ih w1, hl]

/-- Claim C18, refuted on the code for the rollback consumer: its loop over the
items has `continue` as the whole error branch, so it logs nothing. For every world
and every event the log is the same after the rollback loop as before it, whereas on
the handle of `InitDB` every item fails and the deduction consumer logs one line per
item. For the event `[(1, 3)]` the addition returns an error, the rollback consumer
logs nothing and the deduction consumer logs the item. -/
theorem rollback_failures_are_not_logged (w : World) (store : Store) (redis : Client)
    (logs : List String) (spawned : List Goroutine) (products : List ProductStockItem) :
    (ProductRollbackStockConsumer.rollbackStock w products).logs = w.logs
    ∧ (ProductUpdateStockConsumer.updateStock
        ⟨⟨InitDB store, redis⟩, logs, spawned⟩ products).logs
      = logs ++ products.map updateStockLine
    ∧ (ProductService.AddProductStockByProductID (World.boot storeTwo redisEmpty) 1 3).2
      = some Err.ErrMissingWhereClause
    ∧ (ProductRollbackStockConsumer.rollbackStock (World.boot storeTwo redisEmpty)
        [⟨1, 3⟩]).logs = []
    ∧ (ProductUpdateStockConsumer.updateStock (World.boot storeTwo redisEmpty)
        [⟨1, 3⟩]).logs = ["[KAFKA] Error Update Product Stock Product ID #1"] := by
  refine ⟨rollbackStock_logs products w, ?_, by decide, by decide, by decide⟩
  rw [updateStock_boot]

/-- Claim C20, refuted on the code: on the handle of `InitDB` a deduction never
succeeds, so the pipeline never takes a stock below zero: for every product and
quantity the deduction returns an error and the stock of every product is as before.
With stock 2 and quantity 5 the call returns `ErrMissingWhereClause` and the stock
stays 2. The expression itself has no floor: on a handle that allows global updates,
with an engine that evaluates it as arithmetic, deducting 15 takes the stock of
product 1 from 10 to -5. -/
theorem deduction_never_reaches_negative_stock (store : Store) (redis : Client)
    (logs : List String) (spawned : List Goroutine) (p q P : Int) :
    (ProductService.DeductProductStockByProductID ⟨⟨InitDB store, redis⟩, logs, spawned⟩ p q).2
      ≠ none
    ∧ stockOf (ProductUpdateStockConsumer.updateStock
        ⟨⟨InitDB store, redis⟩, logs, spawned⟩ [⟨p, q⟩]) P
      = stockOf ⟨⟨InitDB store, redis⟩, logs, spawned⟩ P
    ∧ (ProductService.DeductProductStockByProductID (World.boot storeLow redisEmpty) 1 5).2
      = some Err.ErrMissingWhereClause
    ∧ stockOf (ProductUpdateStockConsumer.updateStock (World.boot storeLow redisEmpty)
        [⟨1, 5⟩]) 1 = some 2
    ∧ stockOf (ProductUpdateStockConsumer.updateStock ⟨repoGlobal, [], []⟩ [⟨1, 15⟩]) 1
      = some (-5) := by
  refine ⟨?_, ?_, by decide, by decide, by decide⟩
  · rw [service_deduct_boot]
    simp
  · rw [updateStock_boot]
    rfl

/-- Claim C19: for every decoded item `(productID, qty)`, whatever the sign of `qty`,
the deduction consumer never increases the stock of a product and the rollback
consumer never decreases it: if a product has stock `s` before the item, `sd` after
the deduction consumer has processed it and `sr` after the rollback consumer has,
then `sd ≤ s ≤ sr`. (On the handle of `InitDB` neither update is executed, so both
stocks are still `s`.) -/
theorem consumers_keep_direction (store : Store) (redis : Client) (logs : List String)
    (spawned : List Goroutine) (productID qty P s sd sr : Int)
    (hs : stockOf ⟨⟨InitDB store, redis⟩, logs, spawned⟩ P = some s)
    (hd : stockOf (ProductUpdateStockConsumer.updateStock
      ⟨⟨InitDB store, redis⟩, logs, spawned⟩ [⟨productID, qty⟩]) P = some sd)
    (hr : stockOf (ProductRollbackStockConsumer.rollbackStock
      ⟨⟨InitDB store, redis⟩, logs, spawned⟩ [⟨productID, qty⟩]) P = some sr) :
    sd ≤ s ∧ s ≤ sr := by
  rw [updateStock_boot] at hd
  rw [rollbackStock_boot] at hr
  have hs' : (store.rows.find? (fun p => p.ID == P)).map (fun p => p.Stock) = some s := hs
  have hd' : (store.rows.find? (fun p => p.ID == P)).map (fun p => p.Stock) = some sd := hd
  have hr' : (store.rows.find? (fun p => p.ID == P)).map (fun p => p.Stock) = some sr := hr
  rw [hs'] at hd' hr'
  have h1 : s = sd := by simpa using hd'
  have h2 : s = sr := by simpa using hr'
  omega

theorem consumers_keep_direction_witness :
    stockOf ⟨⟨InitDB storeTwo, redisEmpty⟩, [], []⟩ 1 = some 10
    ∧ stockOf (ProductUpdateStockConsumer.updateStock
        ⟨⟨InitDB storeTwo, redisEmpty⟩, [], []⟩ [⟨1, -3⟩]) 1 = some 10
    ∧ stockOf (ProductRollbackStockConsumer.rollbackStock
        ⟨⟨InitDB storeTwo, redisEmpty⟩, [], []⟩ [⟨1, -3⟩]) 1 = some 10
    ∧ (10 : Int) ≤ 10 ∧ (10 : Int) ≤ 10 :=
  ⟨by decide, by decide, by decide,
    consumers_keep_direction storeTwo redisEmpty [] [] 1 (-3) 1 10 10 10
      (by decide) (by decide) (by decide)⟩

theorem toDigitsCore_decimal (fuel : Nat) :
    ∀ (n : Nat) (ds : List Char), n < fuel →
      Nat.toDigitsCore 10 fuel n ds = decimalNatAux fuel n ++ ds := by
  induction fuel with
  | zero => intro n ds h; omega
  | succ f ih =>
    intro n ds h
    by_cases hn : n < 10
    · have hdiv : n / 10 = 0 := Nat.div_eq_of_lt hn
      have hmod : n % 10 = n := Nat.mod_eq_of_lt hn
      simp [Nat.toDigitsCore, decimalNatAux, hn, hdiv, hmod]
    · have hdiv : n / 10 ≠ 0 := by omega
      have hlt : n / 10 < f := by omega
      simp [Nat.toDigitsCore, decimalNatAux, hn, hdiv, ih (n / 10) _ hlt]

theorem nat_toString_decimal (n : Nat) :
    toString n = String.mk (decimalNatAux (n + 1) n) := by
  show Nat.repr n = _
  simp [Nat.repr, Nat.toDigits, toDigitsCore_decimal (n + 1) n [] (Nat.lt_succ_self n),
    List.asString]

theorem int_toString_decimal (i : Int) : toString i = decimal i := by
  cases i with
  | ofNat m =>
    show toString m = _
    rw [nat_toString_decimal]
    have hnn : ¬ ((m : Int) < 0) := by omega
    simp only [decimal, Int.ofNat_eq_coe, hnn, if_false, Int.natAbs_ofNat]
  | negSucc m =>
    show "-" ++ toString (Nat.succ m) = _
    rw [nat_toString_decimal]
    have hneg : Int.negSucc m < 0 := Int.negSucc_lt_zero m
    simp only [decimal, hneg, if_true, Int.natAbs_negSucc]
    rfl

theorem sprintf_product (id : Int) :
    Sprintf cacheKeyProductInfoFormat [⟨"int64", id⟩] = "product:" ++ toString id := by
  show String.mk (sprintfChars "product:%d".toList [⟨"int64", id⟩]) = _
  have hfmt : "product:%d".toList = ['p', 'r', 'o', 'd', 'u', 'c', 't', ':', '%', 'd'] := rfl
  rw [hfmt]
  simp only [sprintfChars, sprintfExtra, List.append_nil]
  apply String.ext
  simp [String.data_append]

theorem sprintf_category (id : Int) :
    Sprintf cacheKeyProductCategoryInfoFormat [⟨"int", id⟩]
      = "product_category:" ++ toString id := by
  show String.mk (sprintfChars "product_category:%d".toList [⟨"int", id⟩]) = _
  have hfmt : "product_category:%d".toList
      = ['p', 'r', 'o', 'd', 'u', 'c', 't', '_', 'c', 'a', 't', 'e', 'g', 'o', 'r', 'y', ':',
         '%', 'd'] := rfl
  rw [hfmt]
  simp only [sprintfChars, sprintfExtra, List.append_nil]
  apply String.ext
  simp [String.data_append]

theorem get_issued (json : JSON) (r : ProductRepository) (productID : Int) :
    (r.GetProductByIDFromRedis json productID).1.Redis.issued
      = r.Redis.issued ++ [("GET", cacheKeyProductInfo productID)] := by
  unfold ProductRepository.GetProductByIDFromRedis Client.Get
  simp only
  split <;> split <;> (try split) <;> (try split) <;> simp_all

theorem category_get_issued (json : CategoryJSON) (r : ProductRepository) (id : Int) :
    (r.GetProductCategoryByIDFromRedis json id).1.Redis.issued
      = r.Redis.issued ++ [("GET", cacheKeyProductCategoryInfo id)] := by
  unfold ProductRepository.GetProductCategoryByIDFromRedis Client.Get
  simp only
  split <;> split <;> (try split) <;> (try split) <;> simp_all

theorem set_issued (json : JSON) (r : ProductRepository) (product : Option Product)
    (productID : Int) :
    (r.SetProductByID json product productID).1.Redis.issued
      = r.Redis.issued ++
        (match json.MarshalPtr product with
         | .ok _ => [("SETEX", cacheKeyProductInfo productID)]
         | .error _ => []) := by
  unfold ProductRepository.SetProductByID Client.SetEx
  cases hm : json.MarshalPtr product with
  | error err => simp
  | ok encoded => cases hc : r.Redis.connErr <;> simp [hc]

theorem category_set_issued (json : CategoryJSON) (r : ProductRepository)
    (category : Option ProductCategory) (id : Int) :
    (r.SetProductCategoryByID json category id).1.Redis.issued
      = r.Redis.issued ++
        (match json.MarshalPtr category with
         | .ok _ => [("SETEX", cacheKeyProductCategoryInfo id)]
         | .error _ => []) := by
  unfold ProductRepository.SetProductCategoryByID Client.SetEx
  cases hm : json.MarshalPtr category with
  | error err => simp
  | ok encoded => cases hc : r.Redis.connErr <;> simp [hc]

/-- Claim C21: for every integer id, `fmt.Sprintf` applied to the format of the
product key gives `product:` followed by the id in decimal, and applied to the format
of the category key gives `product_category:` followed by the id in decimal (a minus
sign before the digits of a negative id); these are the keys of the `GET` that the
get operation issues and of the `SETEX` that the set operation of the same kind
issues (which issues none when the encoding fails). For 42 and 7 the keys are
`product:42` and `product_category:7`. -/
theorem cache_keys_are_kind_and_decimal_id (id : Int) (json : JSON) (cjson : CategoryJSON)
    (r : ProductRepository) (product : Option Product) (category : Option ProductCategory) :
    Sprintf cacheKeyProductInfoFormat [⟨"int64", id⟩] = "product:" ++ decimal id
    ∧ Sprintf cacheKeyProductCategoryInfoFormat [⟨"int", id⟩]
      = "product_category:" ++ decimal id
    ∧ cacheKeyProductInfo id = Sprintf cacheKeyProductInfoFormat [⟨"int64", id⟩]
    ∧ cacheKeyProductCategoryInfo id
      = Sprintf cacheKeyProductCategoryInfoFormat [⟨"int", id⟩]
    ∧ (r.GetProductByIDFromRedis json id).1.Redis.issued
      = r.Redis.issued ++ [("GET", "product:" ++ decimal id)]
    ∧ (r.SetProductByID json product id).1.Redis.issued
      = r.Redis.issued ++
        (match json.MarshalPtr product with
         | .ok _ => [("SETEX", "product:" ++ decimal id)]
         | .error _ => [])
    ∧ (r.GetProductCategoryByIDFromRedis cjson id).1.Redis.issued
      = r.Redis.issued ++ [("GET", "product_category:" ++ decimal id)]
    ∧ (r.SetProductCategoryByID cjson category id).1.Redis.issued
      = r.Redis.issued ++
        (match cjson.MarshalPtr category with
         | .ok _ => [("SETEX", "product_category:" ++ decimal id)]
         | .error _ => [])
    ∧ Sprintf cacheKeyProductInfoFormat [⟨"int64", 42⟩] = "product:42"
    ∧ Sprintf cacheKeyProductCategoryInfoFormat [⟨"int", 7⟩] = "product_category:7"
    ∧ Sprintf cacheKeyProductInfoFormat [⟨"int64", -5⟩] = "product:-5" := by
  have hp : cacheKeyProductInfo id = "product:" ++ decimal id := by
    rw [← int_toString_decimal]; rfl
  have hc : cacheKeyProductCategoryInfo id = "product_category:" ++ decimal id := by
    rw [← int_toString_decimal]; rfl
  refine ⟨?_, ?_, ?_, ?_, ?_, ?_, ?_, ?_, by decide, by decide, by decide⟩
  · rw [sprintf_product, int_toString_decimal]
  · rw [sprintf_category, int_toString_decimal]
  · rw [sprintf_product]; rfl
  · rw [sprintf_category]; rfl
  · rw [get_issued, hp]
  · rw [set_issued, hp]
  · rw [category_get_issued, hc]
  · rw [category_set_issued, hc]

theorem goDiv_ret_iff (a b : Int) : (∃ v, goDiv a b = Result.ret v) ↔ b ≠ 0 := by
  unfold goDiv
  by_cases hb : b = 0
  · simp [hb]
  · simp [hb]

/-- Claim C22, refuted on the code: the errors of both `strconv.Atoi` calls are
discarded and nothing checks `pageSize` before the quotient, and the Go quotient
returns exactly when the divisor is not zero. For every world, every other query
value and every product list and total count the usecase returns without error, the
handler panics with an integer division by zero when `pageSize` is `0`, when it is
not a number (`abc`) and when it is empty. With `pageSize` absent the default 2 is
used and five products give three pages; with `pageSize=-1` the quotient is taken. -/
theorem search_page_size_zero_panics (w : World) (name category orderBy sort : String)
    (page : Option String) (products : List Product) (totalCount a b : Int) :
    (ProductHandler.SearchProduct (fun _ => (products, totalCount, none)) w
        ⟨name, category, page, some "0", orderBy, sort⟩).2
      = Result.panic "runtime error: integer divide by zero"
    ∧ (ProductHandler.SearchProduct (fun _ => (products, totalCount, none)) w
        ⟨name, category, page, some "abc", orderBy, sort⟩).2
      = Result.panic "runtime error: integer divide by zero"
    ∧ (ProductHandler.SearchProduct (fun _ => (products, totalCount, none)) w
        ⟨name, category, page, some "", orderBy, sort⟩).2
      = Result.panic "runtime error: integer divide by zero"
    ∧ ((∃ v, goDiv a b = Result.ret v) ↔ b ≠ 0)
    ∧ (ProductHandler.SearchProduct usecaseFive (World.boot storeTwo redisEmpty)
        (searchQuery none none)).2
      = Result.ret (SearchAnswer.data 200 ⟨[productOne, productTwo], 1, 2, 5, 3, true⟩)
    ∧ (ProductHandler.SearchProduct usecaseFive (World.boot storeTwo redisEmpty)
        (searchQuery (some "1") (some "-1"))).2
      = Result.ret (SearchAnswer.data 200 ⟨[productOne, productTwo], 1, -1, 5, -3, false⟩) := by
  have h0 : (Atoi "0").1 = 0 := by decide
  have habc : (Atoi "abc").1 = 0 := by decide
  have hempty : (Atoi "").1 = 0 := by decide
  refine ⟨?_, ?_, ?_, goDiv_ret_iff a b, by decide, by decide⟩
  · simp [ProductHandler.SearchProduct, DefaultQuery, h0, goDiv]
  · simp [ProductHandler.SearchProduct, DefaultQuery, habc, goDiv]
  · simp [ProductHandler.SearchProduct, DefaultQuery, hempty, goDiv]

end Productfc
